import Mathlib

/-!
# RTK: projection geometry and conjugate-gradient cone-beam reconstruction

A shallow embedding of

* `include/rtkProjectionGeometry.h` (`rtk::ProjectionGeometry`),
* `code/rtkConjugateGradientConeBeamReconstructionFilter.cxx`
  (constructor, `GenerateOutputInformation`, `GenerateData`),
* `code/rtkDotProductImageFilter.h` (`rtk::Functor::DotProduct`),
* `code/rtkWarpFourDToProjectionStackImageFilter.hxx` (`GenerateData`),
* `src/rtkXRadImageIO.cxx` (`ReadImageInformation`, `CanReadFile`),

followed by the theorems about them.  Definitions come first, theorems second.

Conventions.  C++ object state is an explicit record that every member
function takes and returns.  Pointers to pipeline data objects are values of
`DataRef`; a null pointer is `none`.  Pixel values (`double` in the source) are
exact rationals.  The numerical behaviour of the ITK and RTK classes the
reconstruction filter is wired from is a parameter (`Backend`); the pixel-wise
product, the dot product and the pixel sum are defined here.
-/

namespace rtk

/-! ## Part 1. Definitions -/

/-! ### `rtk::ProjectionGeometry` -/

/-- The exception thrown by `itkExceptionMacro` in `ProjectionGeometry::GetMatrix`;
it carries the requested index, as the message of the source does. -/
inductive ExceptionObject where
  | matrixIndexOutOfBound (i : Nat)
  deriving DecidableEq, Repr

/-- The state of a `ProjectionGeometry<TDimension>` object: the private member
`m_Matrices` and the modification time that `itk::Object` keeps.
`MatrixType` is `itk::Matrix<double, TDimension, TDimension + 1>`. -/
structure ProjectionGeometry (MatrixType : Type) where
  m_Matrices : List MatrixType
  m_MTime : Nat
  deriving DecidableEq, Repr

namespace ProjectionGeometry

variable {MatrixType : Type}

/-- The constructor `ProjectionGeometry() = default`: no matrix stored. -/
def new : ProjectionGeometry MatrixType :=
  { m_Matrices := [], m_MTime := 0 }

/-- The call `itk::Object::Modified()`: moves the modification time forward. -/
def Modified (g : ProjectionGeometry MatrixType) : ProjectionGeometry MatrixType :=
  { g with m_MTime := g.m_MTime + 1 }

/-- The getter `GetMatrices()`: the stored vector. -/
def GetMatrices (g : ProjectionGeometry MatrixType) : List MatrixType :=
  g.m_Matrices

/-- The getter `GetMatrix(i)`: throws when `i >= m_Matrices.size()`, else
returns `m_Matrices[i]`. -/
def GetMatrix (g : ProjectionGeometry MatrixType) (i : Nat) :
    Except ExceptionObject MatrixType :=
  if h : i ≥ g.m_Matrices.length then
    Except.error (ExceptionObject.matrixIndexOutOfBound i)
  else
    Except.ok (g.m_Matrices.get ⟨i, Nat.lt_of_not_ge h⟩)

/-- The method `AddMatrix(m)`: `m_Matrices.push_back(m); Modified();`. -/
def AddMatrix (g : ProjectionGeometry MatrixType) (m : MatrixType) :
    ProjectionGeometry MatrixType :=
  Modified { g with m_Matrices := g.m_Matrices ++ [m] }

/-- A run of `AddMatrix` calls, first matrix of the list first. -/
def AddMatrices (g : ProjectionGeometry MatrixType) (ms : List MatrixType) :
    ProjectionGeometry MatrixType :=
  ms.foldl AddMatrix g

end ProjectionGeometry

/-! ### Images and the pixel-wise filters -/

/-- A pixel of an `itk::VectorImage<double, 3>`: its components. -/
abbrev Pixel := List ℚ

/-- The pixel buffer of an `itk::VectorImage<double, 3>`, in raster order. -/
abbrev VectorImage := List Pixel

/-- The pixel buffer of an `itk::Image<double, 3>`, in raster order. -/
abbrev ScalarImage := List ℚ

namespace Functor

/-- The vector-pixel overload of `Functor::DotProduct::operator()`:
`out = 0; for (component = 0; component < GetLength(A); component++)
out += A[component] * B[component];`.  A read past the end of `B` is read as 0. -/
def DotProduct (A B : Pixel) : ℚ :=
  (List.range A.length).foldl (fun out component => out + A.getD component 0 * B.getD component 0) 0

/-- The scalar overload of `Functor::DotProduct::operator()`: `A * B`. -/
def DotProductScalar (A B : ℚ) : ℚ :=
  A * B

end Functor

/-- The pixel-wise pass of `rtk::DotProductImageFilter` over two vector images. -/
def DotProductImage (a b : VectorImage) : ScalarImage :=
  List.zipWith Functor.DotProduct a b

/-- The value of `itk::StatisticsImageFilter::GetSum()`: the sum of the pixels. -/
def StatisticsSum (a : ScalarImage) : ℚ :=
  a.sum

/-- The pixel-wise pass of `itk::MultiplyImageFilter` with a vector image as
first input and a single-component image as second input: every component of
a pixel is multiplied by the pixel of the second image at the same place. -/
def MultiplyImage (a : VectorImage) (w : ScalarImage) : VectorImage :=
  List.zipWith (fun px c => px.map (fun v => v * c)) a w

/-- Pixel-wise sum of two vector images. -/
def AddImage (a b : VectorImage) : VectorImage :=
  List.zipWith (List.zipWith (fun u v => u + v)) a b

/-- Pixel-wise difference of two vector images. -/
def SubtractImage (a b : VectorImage) : VectorImage :=
  List.zipWith (List.zipWith (fun u v => u - v)) a b

/-- A vector image multiplied by a constant. -/
def ScaleImage (c : ℚ) (a : VectorImage) : VectorImage :=
  a.map (fun px => px.map (fun v => c * v))

/-- The inner product of two vector images: the sum of the pixel dot products. -/
def InnerProduct (a b : VectorImage) : ℚ :=
  StatisticsSum (DotProductImage a b)

/-! ### The conjugate gradient solver -/

namespace ConjugateGradientImageFilter

/-- Modelled from the spec: the state of the conjugate gradient solver (§3,
SolverState), whose code (`rtkConjugateGradientImageFilter`) is not among the
sources: the iterate, the residual, the conjugate direction, the iteration
counter and the history of per-iteration costs. -/
structure SolverState where
  x : VectorImage
  r : VectorImage
  p : VectorImage
  k : Nat
  costs : List ℚ

/-- Modelled from the spec: the solver state at start (§4.6), residual
`B - A x0` and first direction equal to it. -/
def start (A : VectorImage → VectorImage) (B x0 : VectorImage) : SolverState :=
  { x := x0, r := SubtractImage B (A x0), p := SubtractImage B (A x0), k := 0, costs := [] }

/-- Modelled from the spec: the cost diagnostic of §4.6, half the sum of a
residual-related dot product, offset by the constant `C` set with `SetC`. -/
def cost (C : ℚ) (st : SolverState) : ℚ :=
  C + (1 / 2) * InnerProduct st.r st.x

/-- Modelled from the spec: one step of the recurrence of §4.6.  When cost
tracking is on the cost is appended to the history first; then the step size,
the iterate, the residual, the Gram-Schmidt coefficient and the direction are
updated. -/
def step (A : VectorImage → VectorImage) (track : Bool) (C : ℚ) (st : SolverState) :
    SolverState :=
  let costs := if track then st.costs ++ [cost C st] else st.costs
  let Ap := A st.p
  let alpha := InnerProduct st.r st.r / InnerProduct st.p Ap
  let x := AddImage st.x (ScaleImage alpha st.p)
  let r := SubtractImage st.r (ScaleImage alpha Ap)
  let beta := InnerProduct r r / InnerProduct st.r st.r
  { x := x, r := r, p := AddImage r (ScaleImage beta st.p), k := st.k + 1, costs := costs }

/-- Modelled from the spec: at most `n` steps (§4.6); when the target is not 0,
the loop stops after the first step whose iterate is closer to the previous one
than the target, in sum of squared differences. -/
def iterate (A : VectorImage → VectorImage) (track : Bool) (C target : ℚ) :
    Nat → SolverState → SolverState
  | 0, st => st
  | n + 1, st =>
    let st1 := step A track C st
    let d := SubtractImage st1.x st.x
    if target ≠ 0 ∧ InnerProduct d d < target then st1
    else iterate A track C target n st1

/-- Modelled from the spec: a solve (§4.6) with operator `A`, right-hand side
`B`, first iterate `x0`, iteration budget `N` and early-stop target. -/
def solve (A : VectorImage → VectorImage) (B x0 : VectorImage) (N : Int) (target : ℚ)
    (track : Bool) (C : ℚ) : SolverState :=
  iterate A track C target N.toNat (start A B x0)

end ConjugateGradientImageFilter

/-! ### The state of `ConjugateGradientConeBeamReconstructionFilter`

The embedding is of the specialization for `itk::VectorImage<double, 3>` and
`itk::Image<double, 3>` in a build without `RTK_USE_CUDA`.  `Img` names the
vector images owned by the caller, `Msk` the single-component images, `Geo` the
geometry objects. -/

/-- A pointer to a data object of the mini-pipeline: an image of the caller or
the output of one of the sub-filters.  The conjugate gradient filter is created
anew by every `GenerateOutputInformation`, so its output carries the serial
number of the filter object it belongs to. -/
inductive DataRef (Img : Type) where
  | image (i : Img)
  | constantVolumeSource
  | displacedDetector
  | backProjectionForB
  | matrixVectorMultiply
  | multiplyVolume
  | multiplyOutput
  | conjugateGradient (serial : Nat)
  deriving DecidableEq, Repr

/-- The sub-filter `m_ConstantVolumeSource`. -/
structure ConstantImageSource (Img : Type) where
  m_Constant : ℚ
  information : Option Img

/-- The sub-filter `m_DisplacedDetectorFilter`. -/
structure DisplacedDetectorImageFilter (Img Geo : Type) where
  m_PadOnTruncatedSide : Bool
  m_Disable : Bool
  input : Option (DataRef Img)
  m_Geometry : Option Geo

/-- The sub-filter `m_BackProjectionFilterForB`. -/
structure BackProjectionImageFilter (Img Geo : Type) where
  input0 : Option (DataRef Img)
  input1 : Option (DataRef Img)
  m_Geometry : Option Geo
  releaseDataFlag : Bool

/-- The sub-filter `m_MatrixVectorMultiplyFilter`. -/
structure MatrixVectorMultiplyFilter (Img : Type) where
  input1 : Option (DataRef Img)
  input2 : Option (DataRef Img)
  releaseDataFlag : Bool

/-- The sub-filters `m_MultiplyVolumeFilter` and `m_MultiplyOutputFilter`. -/
structure MultiplyFilter (Img Msk : Type) where
  input1 : Option (DataRef Img)
  input2 : Option Msk
  releaseDataFlag : Bool

/-- The sub-filter `m_CGOperator`, the operator `A`.  Input 0 is the volume the solver
applies it to. -/
structure CGOperator (Img Msk Geo : Type) where
  input1 : Option (DataRef Img)
  input2 : Option (DataRef Img)
  m_SupportMask : Option Msk
  m_Geometry : Option Geo
  m_Gamma : ℚ
  m_Tikhonov : ℚ

/-- What `SetA` can point to: the filter owns one operator object. -/
inductive OperatorRef where
  | cgOperator
  deriving DecidableEq, Repr

/-- The sub-filter `m_ConjugateGradientFilter`. -/
structure ConjugateGradientFilter (Img : Type) where
  serial : Nat
  m_A : Option OperatorRef
  m_B : Option (DataRef Img)
  m_X : Option (DataRef Img)
  m_NumberOfIterations : Int
  m_TargetSumOfSquaresBetweenConsecutiveIterates : ℚ
  m_IterationCosts : Bool
  m_C : ℚ

/-- A line written to `std::cout` by `GenerateData`. -/
inductive LogLine where
  | starting
  | took (total : ℚ)

/-- The state of a `ConjugateGradientConeBeamReconstructionFilter`. -/
structure ConjugateGradientConeBeamReconstructionFilter (Img Msk Geo : Type) where
  numberOfRequiredInputs : Nat
  input0 : Option Img
  input1 : Option Img
  input2 : Option Img
  supportMask : Option Msk
  m_Geometry : Option Geo
  m_NumberOfIterations : Int
  m_MeasureExecutionTimes : Bool
  m_IterationCosts : Bool
  m_Gamma : ℚ
  m_Tikhonov : ℚ
  m_Regularized : Bool
  m_CudaConjugateGradient : Bool
  m_DisableDisplacedDetectorFilter : Bool
  m_TargetSumOfSquaresBetweenConsecutiveIterates : ℚ
  m_DisplacedDetectorFilter : DisplacedDetectorImageFilter Img Geo
  m_ConstantVolumeSource : ConstantImageSource Img
  m_CGOperator : CGOperator Img Msk Geo
  m_MultiplyVolumeFilter : MultiplyFilter Img Msk
  m_MatrixVectorMultiplyFilter : MatrixVectorMultiplyFilter Img
  m_MultiplyOutputFilter : MultiplyFilter Img Msk
  m_BackProjectionFilterForB : BackProjectionImageFilter Img Geo
  m_ConjugateGradientFilter : Option (ConjugateGradientFilter Img)
  conjugateGradientCreated : Nat
  outputInformation : Option (DataRef Img)
  output : Option VectorImage
  cout : List LogLine

/-- The numerical behaviour of the classes the filter is built from and whose
code is not part of the sources, taken as parameters: the pixels of the
caller's images, the constant image source, the displaced detector filter
(arguments: pad on truncated side, disable, geometry, input), the back
projection filter (geometry, input 0, input 1), the matrix-vector multiply
filter, one application of the operator `A` (inputs 1 and 2, support mask,
geometry, gamma, tikhonov, then the volume it is applied to), and the final
iterate of the conjugate gradient filter (operator, `B`, `X`, number of
iterations, early-stop target, iteration-costs flag, cost constant `C`). -/
structure Backend (Img Msk Geo : Type) where
  image : Img → VectorImage
  mask : Msk → ScalarImage
  constantImageSource : ℚ → Option Img → VectorImage
  displacedDetector : Bool → Bool → Option Geo → VectorImage → VectorImage
  backProjection : Option Geo → VectorImage → VectorImage → VectorImage
  matrixVectorMultiply : VectorImage → VectorImage → VectorImage
  normalOperator : VectorImage → VectorImage → Option ScalarImage → Option Geo → ℚ → ℚ →
    VectorImage → VectorImage
  conjugateGradient : (VectorImage → VectorImage) → VectorImage → VectorImage → Int → ℚ →
    Bool → ℚ → VectorImage

/-- The solver contract of §4.6 of the spec: the final iterate does not depend
on whether costs are tracked nor on the cost constant. -/
def Backend.CostsAreSideChannel {Img Msk Geo : Type} (env : Backend Img Msk Geo) : Prop :=
  ∀ (A : VectorImage → VectorImage) (B X : VectorImage) (N : Int) (target : ℚ)
    (costs costs2 : Bool) (C C2 : ℚ),
    env.conjugateGradient A B X N target costs C = env.conjugateGradient A B X N target costs2 C2

/-- A conjugate gradient filter as `ConjugateGradientFilterType::New()` returns
it: nothing connected, cost constant 0.  Every member but `m_C` is set again by
`GenerateOutputInformation` before it is read. -/
def ConjugateGradientFilter.new {Img : Type} (serial : Nat) : ConjugateGradientFilter Img :=
  { serial := serial, m_A := none, m_B := none, m_X := none, m_NumberOfIterations := 1,
    m_TargetSumOfSquaresBetweenConsecutiveIterates := 0, m_IterationCosts := false, m_C := 0 }

/-- The inputs and parameters a caller sets on the filter before a run. -/
structure Parameters (Img Msk Geo : Type) where
  input0 : Option Img
  input1 : Option Img
  input2 : Option Img
  supportMask : Option Msk
  geometry : Option Geo
  numberOfIterations : Int
  measureExecutionTimes : Bool
  iterationCosts : Bool
  gamma : ℚ
  tikhonov : ℚ
  regularized : Bool
  cudaConjugateGradient : Bool
  disableDisplacedDetectorFilter : Bool
  targetSumOfSquaresBetweenConsecutiveIterates : ℚ

namespace ConjugateGradientConeBeamReconstructionFilter

variable {Img Msk Geo : Type}

/-- The constructor.  `m_BackProjectionFilterForB` and `m_Geometry` are set at
run time by the caller; the back projection filter is taken as present. -/
def new : ConjugateGradientConeBeamReconstructionFilter Img Msk Geo :=
  { numberOfRequiredInputs := 3
    input0 := none
    input1 := none
    input2 := none
    supportMask := none
    m_Geometry := none
    m_NumberOfIterations := 3
    m_MeasureExecutionTimes := false
    m_IterationCosts := false
    m_Gamma := 0
    m_Tikhonov := 0
    m_Regularized := false
    m_CudaConjugateGradient := true
    m_DisableDisplacedDetectorFilter := false
    m_TargetSumOfSquaresBetweenConsecutiveIterates := 0
    m_DisplacedDetectorFilter :=
      { m_PadOnTruncatedSide := false, m_Disable := false, input := none, m_Geometry := none }
    m_ConstantVolumeSource := { m_Constant := 0, information := none }
    m_CGOperator :=
      { input1 := none, input2 := none, m_SupportMask := none, m_Geometry := none,
        m_Gamma := 0, m_Tikhonov := 0 }
    m_MultiplyVolumeFilter := { input1 := none, input2 := none, releaseDataFlag := false }
    m_MatrixVectorMultiplyFilter := { input1 := none, input2 := none, releaseDataFlag := false }
    m_MultiplyOutputFilter := { input1 := none, input2 := none, releaseDataFlag := false }
    m_BackProjectionFilterForB :=
      { input0 := none, input1 := none, m_Geometry := none, releaseDataFlag := false }
    m_ConjugateGradientFilter := none
    conjugateGradientCreated := 0
    outputInformation := none
    output := none
    cout := [] }

/-! The setters are declared in the class header, which is not among the
sources. -/

/-- Modelled from the spec: the setter `SetInput(0, i)` of §6 (the volume the
solver starts from); it assigns its member and nothing else. -/
def SetInput0 (i : Option Img)
    (s : ConjugateGradientConeBeamReconstructionFilter Img Msk Geo) :
    ConjugateGradientConeBeamReconstructionFilter Img Msk Geo :=
  { s with input0 := i }

/-- Modelled from the spec: the setter `SetInput(1, i)` of §6 (the inverse
covariance weights); it assigns its member and nothing else. -/
def SetInput1 (i : Option Img)
    (s : ConjugateGradientConeBeamReconstructionFilter Img Msk Geo) :
    ConjugateGradientConeBeamReconstructionFilter Img Msk Geo :=
  { s with input1 := i }

/-- Modelled from the spec: the setter `SetInput(2, i)` of §6 (the measured
projections); it assigns its member and nothing else. -/
def SetInput2 (i : Option Img)
    (s : ConjugateGradientConeBeamReconstructionFilter Img Msk Geo) :
    ConjugateGradientConeBeamReconstructionFilter Img Msk Geo :=
  { s with input2 := i }

/-- Modelled from the spec: the setter `SetSupportMask(m)` of §6; it assigns its
member and nothing else. -/
def SetSupportMask (m : Option Msk)
    (s : ConjugateGradientConeBeamReconstructionFilter Img Msk Geo) :
    ConjugateGradientConeBeamReconstructionFilter Img Msk Geo :=
  { s with supportMask := m }

/-- Modelled from the spec: the setter `SetGeometry(g)` of §6; it assigns its
member and nothing else. -/
def SetGeometry (g : Option Geo)
    (s : ConjugateGradientConeBeamReconstructionFilter Img Msk Geo) :
    ConjugateGradientConeBeamReconstructionFilter Img Msk Geo :=
  { s with m_Geometry := g }

/-- Modelled from the spec: the setter `SetNumberOfIterations(n)` of §6; it assigns its
member and nothing else. -/
def SetNumberOfIterations (n : Int)
    (s : ConjugateGradientConeBeamReconstructionFilter Img Msk Geo) :
    ConjugateGradientConeBeamReconstructionFilter Img Msk Geo :=
  { s with m_NumberOfIterations := n }

/-- Modelled from the spec: the setter `SetMeasureExecutionTimes(b)` of §6; it assigns its
member and nothing else. -/
def SetMeasureExecutionTimes (b : Bool)
    (s : ConjugateGradientConeBeamReconstructionFilter Img Msk Geo) :
    ConjugateGradientConeBeamReconstructionFilter Img Msk Geo :=
  { s with m_MeasureExecutionTimes := b }

/-- Modelled from the spec: the setter `SetIterationCosts(b)` of §6; it assigns its
member and nothing else. -/
def SetIterationCosts (b : Bool)
    (s : ConjugateGradientConeBeamReconstructionFilter Img Msk Geo) :
    ConjugateGradientConeBeamReconstructionFilter Img Msk Geo :=
  { s with m_IterationCosts := b }

/-- Modelled from the spec: the setter `SetGamma(g)` of §6; it assigns its
member and nothing else. -/
def SetGamma (g : ℚ)
    (s : ConjugateGradientConeBeamReconstructionFilter Img Msk Geo) :
    ConjugateGradientConeBeamReconstructionFilter Img Msk Geo :=
  { s with m_Gamma := g }

/-- Modelled from the spec: the setter `SetTikhonov(t)` of §6; it assigns its
member and nothing else. -/
def SetTikhonov (t : ℚ)
    (s : ConjugateGradientConeBeamReconstructionFilter Img Msk Geo) :
    ConjugateGradientConeBeamReconstructionFilter Img Msk Geo :=
  { s with m_Tikhonov := t }

/-- Modelled from the spec: the setter `SetRegularized(b)` of §6; it assigns its
member and nothing else. -/
def SetRegularized (b : Bool)
    (s : ConjugateGradientConeBeamReconstructionFilter Img Msk Geo) :
    ConjugateGradientConeBeamReconstructionFilter Img Msk Geo :=
  { s with m_Regularized := b }

/-- Modelled from the spec: the setter `SetCudaConjugateGradient(b)` of §6; it assigns its
member and nothing else. -/
def SetCudaConjugateGradient (b : Bool)
    (s : ConjugateGradientConeBeamReconstructionFilter Img Msk Geo) :
    ConjugateGradientConeBeamReconstructionFilter Img Msk Geo :=
  { s with m_CudaConjugateGradient := b }

/-- Modelled from the spec: the setter `SetDisableDisplacedDetectorFilter(b)` of §6; it assigns its
member and nothing else. -/
def SetDisableDisplacedDetectorFilter (b : Bool)
    (s : ConjugateGradientConeBeamReconstructionFilter Img Msk Geo) :
    ConjugateGradientConeBeamReconstructionFilter Img Msk Geo :=
  { s with m_DisableDisplacedDetectorFilter := b }

/-- Modelled from the spec: the setter `SetTargetSumOfSquaresBetweenConsecutiveIterates(v)` of §6; it assigns its
member and nothing else. -/
def SetTargetSumOfSquaresBetweenConsecutiveIterates (v : ℚ)
    (s : ConjugateGradientConeBeamReconstructionFilter Img Msk Geo) :
    ConjugateGradientConeBeamReconstructionFilter Img Msk Geo :=
  { s with m_TargetSumOfSquaresBetweenConsecutiveIterates := v }

/-- All the setters in a row, with the values of `p`. -/
def SetParameters (p : Parameters Img Msk Geo)
    (s : ConjugateGradientConeBeamReconstructionFilter Img Msk Geo) :
    ConjugateGradientConeBeamReconstructionFilter Img Msk Geo :=
  SetTargetSumOfSquaresBetweenConsecutiveIterates p.targetSumOfSquaresBetweenConsecutiveIterates
    (SetDisableDisplacedDetectorFilter p.disableDisplacedDetectorFilter
    (SetCudaConjugateGradient p.cudaConjugateGradient
    (SetRegularized p.regularized
    (SetTikhonov p.tikhonov
    (SetGamma p.gamma
    (SetIterationCosts p.iterationCosts
    (SetMeasureExecutionTimes p.measureExecutionTimes
    (SetNumberOfIterations p.numberOfIterations
    (SetGeometry p.geometry
    (SetSupportMask p.supportMask
    (SetInput2 p.input2
    (SetInput1 p.input1
    (SetInput0 p.input0 s)))))))))))))

/-- The inputs and parameters currently set on the filter. -/
def GetParameters (s : ConjugateGradientConeBeamReconstructionFilter Img Msk Geo) :
    Parameters Img Msk Geo :=
  { input0 := s.input0
    input1 := s.input1
    input2 := s.input2
    supportMask := s.supportMask
    geometry := s.m_Geometry
    numberOfIterations := s.m_NumberOfIterations
    measureExecutionTimes := s.m_MeasureExecutionTimes
    iterationCosts := s.m_IterationCosts
    gamma := s.m_Gamma
    tikhonov := s.m_Tikhonov
    regularized := s.m_Regularized
    cudaConjugateGradient := s.m_CudaConjugateGradient
    disableDisplacedDetectorFilter := s.m_DisableDisplacedDetectorFilter
    targetSumOfSquaresBetweenConsecutiveIterates :=
      s.m_TargetSumOfSquaresBetweenConsecutiveIterates }

/-- The method `GenerateOutputInformation()`, statement by statement.  `this->GetInput(k)`
is `s.inputk`, `this->GetSupportMask()` is `s.supportMask`. -/
def GenerateOutputInformation (s : ConjugateGradientConeBeamReconstructionFilter Img Msk Geo) :
    ConjugateGradientConeBeamReconstructionFilter Img Msk Geo :=
  -- Choose between cuda or non-cuda conjugate gradient filter
  let cg : ConjugateGradientFilter Img := ConjugateGradientFilter.new s.conjugateGradientCreated
  let cg : ConjugateGradientFilter Img := { cg with m_A := some OperatorRef.cgOperator }
  let cg : ConjugateGradientFilter Img :=
    { cg with m_TargetSumOfSquaresBetweenConsecutiveIterates :=
                s.m_TargetSumOfSquaresBetweenConsecutiveIterates }
  let cg : ConjugateGradientFilter Img := { cg with m_IterationCosts := s.m_IterationCosts }
  -- Set runtime connections
  let src : ConstantImageSource Img := { s.m_ConstantVolumeSource with information := s.input0 }
  let op : CGOperator Img Msk Geo := { s.m_CGOperator with input1 := s.input1.map DataRef.image }
  let op : CGOperator Img Msk Geo := { op with m_SupportMask := s.supportMask }
  let cg : ConjugateGradientFilter Img := { cg with m_X := s.input0.map DataRef.image }
  let dd : DisplacedDetectorImageFilter Img Geo :=
    { s.m_DisplacedDetectorFilter with m_Disable := s.m_DisableDisplacedDetectorFilter }
  let dd : DisplacedDetectorImageFilter Img Geo := { dd with input := s.input2.map DataRef.image }
  let bp : BackProjectionImageFilter Img Geo :=
    { s.m_BackProjectionFilterForB with input0 := some DataRef.constantVolumeSource }
  let cg : ConjugateGradientFilter Img := { cg with m_B := some DataRef.backProjectionForB }
  -- Set the matrix vector multiply filter's inputs
  let mvm : MatrixVectorMultiplyFilter Img :=
    { s.m_MatrixVectorMultiplyFilter with input1 := s.input1.map DataRef.image }
  let mvm : MatrixVectorMultiplyFilter Img := { mvm with input2 := some DataRef.displacedDetector }
  let op : CGOperator Img Msk Geo := { op with input2 := some DataRef.displacedDetector }
  let bp : BackProjectionImageFilter Img Geo := { bp with input1 := some DataRef.matrixVectorMultiply }
  -- If a support mask is used, it serves as preconditioning weights
  let mv : MultiplyFilter Img Msk := if s.supportMask.isSome then
      { s.m_MultiplyVolumeFilter with
        input1 := some DataRef.backProjectionForB, input2 := s.supportMask }
    else s.m_MultiplyVolumeFilter
  let op : CGOperator Img Msk Geo :=
    if s.supportMask.isSome then { op with m_SupportMask := s.supportMask } else op
  let cg : ConjugateGradientFilter Img :=
    if s.supportMask.isSome then { cg with m_B := some DataRef.multiplyVolume } else cg
  let mo : MultiplyFilter Img Msk := if s.supportMask.isSome then
      { s.m_MultiplyOutputFilter with
        input1 := some (DataRef.conjugateGradient cg.serial), input2 := s.supportMask }
    else s.m_MultiplyOutputFilter
  -- For the same reason, set geometry now
  let op : CGOperator Img Msk Geo := { op with m_Geometry := s.m_Geometry }
  let bp : BackProjectionImageFilter Img Geo := { bp with m_Geometry := s.m_Geometry }
  let dd : DisplacedDetectorImageFilter Img Geo := { dd with m_Geometry := s.m_Geometry }
  -- Set runtime parameters
  let cg : ConjugateGradientFilter Img := { cg with m_NumberOfIterations := s.m_NumberOfIterations }
  let op : CGOperator Img Msk Geo := { op with m_Gamma := s.m_Gamma }
  let op : CGOperator Img Msk Geo := { op with m_Tikhonov := s.m_Tikhonov }
  -- Set memory management parameters
  let mvm : MatrixVectorMultiplyFilter Img := { mvm with releaseDataFlag := true }
  let bp : BackProjectionImageFilter Img Geo := { bp with releaseDataFlag := true }
  let mv : MultiplyFilter Img Msk :=
    if s.supportMask.isSome then { mv with releaseDataFlag := true } else mv
  let mo : MultiplyFilter Img Msk :=
    if s.supportMask.isSome then { mo with releaseDataFlag := true } else mo
  -- Copy the output information of the last filter
  { s with
    m_ConjugateGradientFilter := some cg
    conjugateGradientCreated := s.conjugateGradientCreated + 1
    m_ConstantVolumeSource := src
    m_CGOperator := op
    m_DisplacedDetectorFilter := dd
    m_BackProjectionFilterForB := bp
    m_MatrixVectorMultiplyFilter := mvm
    m_MultiplyVolumeFilter := mv
    m_MultiplyOutputFilter := mo
    outputInformation := some (DataRef.conjugateGradient cg.serial) }

/-- The call `Update()` on a data object of the mini-pipeline: the pixels it holds once
its source filter has run on its updated inputs.  `fuel` bounds the depth of
the pull; `none` is an update that cannot deliver (a null input, the output of
a filter object that no longer exists, or no fuel left).  The conjugate
gradient filter runs the solver on the operator `A` it was given. -/
def UpdateData (env : Backend Img Msk Geo)
    (s : ConjugateGradientConeBeamReconstructionFilter Img Msk Geo) :
    Nat → DataRef Img → Option VectorImage
  | 0, _ => none
  | _ + 1, DataRef.image i => some (env.image i)
  | _ + 1, DataRef.constantVolumeSource =>
    some (env.constantImageSource s.m_ConstantVolumeSource.m_Constant
      s.m_ConstantVolumeSource.information)
  | fuel + 1, DataRef.displacedDetector =>
    (s.m_DisplacedDetectorFilter.input.bind (UpdateData env s fuel)).map
      (env.displacedDetector s.m_DisplacedDetectorFilter.m_PadOnTruncatedSide
        s.m_DisplacedDetectorFilter.m_Disable s.m_DisplacedDetectorFilter.m_Geometry)
  | fuel + 1, DataRef.backProjectionForB =>
    (s.m_BackProjectionFilterForB.input0.bind (UpdateData env s fuel)).bind fun volume =>
    (s.m_BackProjectionFilterForB.input1.bind (UpdateData env s fuel)).map fun projections =>
      env.backProjection s.m_BackProjectionFilterForB.m_Geometry volume projections
  | fuel + 1, DataRef.matrixVectorMultiply =>
    (s.m_MatrixVectorMultiplyFilter.input1.bind (UpdateData env s fuel)).bind fun matrix =>
    (s.m_MatrixVectorMultiplyFilter.input2.bind (UpdateData env s fuel)).map fun vector =>
      env.matrixVectorMultiply matrix vector
  | fuel + 1, DataRef.multiplyVolume =>
    (s.m_MultiplyVolumeFilter.input1.bind (UpdateData env s fuel)).bind fun volume =>
    s.m_MultiplyVolumeFilter.input2.map fun m => MultiplyImage volume (env.mask m)
  | fuel + 1, DataRef.multiplyOutput =>
    (s.m_MultiplyOutputFilter.input1.bind (UpdateData env s fuel)).bind fun volume =>
    s.m_MultiplyOutputFilter.input2.map fun m => MultiplyImage volume (env.mask m)
  | fuel + 1, DataRef.conjugateGradient serial =>
    s.m_ConjugateGradientFilter.bind fun cg =>
    if cg.serial = serial then
      cg.m_A.bind fun _ =>
      (s.m_CGOperator.input1.bind (UpdateData env s fuel)).bind fun in1 =>
      (s.m_CGOperator.input2.bind (UpdateData env s fuel)).bind fun in2 =>
      (cg.m_B.bind (UpdateData env s fuel)).bind fun B =>
      (cg.m_X.bind (UpdateData env s fuel)).map fun X =>
        env.conjugateGradient
          (env.normalOperator in1 in2 (s.m_CGOperator.m_SupportMask.map env.mask)
            s.m_CGOperator.m_Geometry s.m_CGOperator.m_Gamma s.m_CGOperator.m_Tikhonov)
          B X cg.m_NumberOfIterations cg.m_TargetSumOfSquaresBetweenConsecutiveIterates
          cg.m_IterationCosts cg.m_C
    else none

/-- The method `GenerateData()`.  `elapsed` is the reading of the time probe.  The result
is `none` when the conjugate gradient filter does not exist yet or an update
cannot deliver. -/
def GenerateData (env : Backend Img Msk Geo) (fuel : Nat) (elapsed : ℚ)
    (s : ConjugateGradientConeBeamReconstructionFilter Img Msk Geo) :
    Option (ConjugateGradientConeBeamReconstructionFilter Img Msk Geo) :=
  s.m_ConjugateGradientFilter.bind fun cg =>
  -- if(m_IterationCosts): stats->Update(); m_ConjugateGradientFilter->SetC(0.5*stats->GetSum())
  (if s.m_IterationCosts then
      (UpdateData env s fuel DataRef.matrixVectorMultiply).bind fun weighted =>
      s.input1.map fun i =>
        { cg with m_C := (1 / 2) * StatisticsSum (DotProductImage weighted (env.image i)) }
    else some cg).bind fun cg =>
  let s := { s with m_ConjugateGradientFilter := some cg }
  -- if(m_MeasureExecutionTimes): "Starting ConjugateGradient"
  let s := if s.m_MeasureExecutionTimes then { s with cout := s.cout ++ [LogLine.starting] } else s
  -- m_ConjugateGradientFilter->Update()
  (UpdateData env s fuel (DataRef.conjugateGradient cg.serial)).bind fun solved =>
  -- if (this->GetSupportMask()) m_MultiplyOutputFilter->Update()
  (if s.supportMask.isSome then UpdateData env s fuel DataRef.multiplyOutput
    else some solved).bind fun masked =>
  -- if(m_MeasureExecutionTimes): "ConjugateGradient took ..."
  let s := if s.m_MeasureExecutionTimes then { s with cout := s.cout ++ [LogLine.took elapsed] }
    else s
  -- GraftOutput
  some { s with output := some (if s.supportMask.isSome then masked else solved) }

/-- A call a user of the filter object can make: a setter, or one of the two
pipeline phases. -/
inductive Call (Img Msk Geo : Type) where
  | setInput0 (i : Option Img)
  | setInput1 (i : Option Img)
  | setInput2 (i : Option Img)
  | setSupportMask (m : Option Msk)
  | setGeometry (g : Option Geo)
  | setNumberOfIterations (n : Int)
  | setMeasureExecutionTimes (b : Bool)
  | setIterationCosts (b : Bool)
  | setGamma (g : ℚ)
  | setTikhonov (t : ℚ)
  | setRegularized (b : Bool)
  | setCudaConjugateGradient (b : Bool)
  | setDisableDisplacedDetectorFilter (b : Bool)
  | setTargetSumOfSquaresBetweenConsecutiveIterates (v : ℚ)
  | generateOutputInformation
  | generateData (env : Backend Img Msk Geo) (fuel : Nat) (elapsed : ℚ)

/-- The state after a call.  A `GenerateData` that throws leaves the state as
it was. -/
def Call.apply (c : Call Img Msk Geo)
    (s : ConjugateGradientConeBeamReconstructionFilter Img Msk Geo) :
    ConjugateGradientConeBeamReconstructionFilter Img Msk Geo :=
  match c with
  | Call.setInput0 i => SetInput0 i s
  | Call.setInput1 i => SetInput1 i s
  | Call.setInput2 i => SetInput2 i s
  | Call.setSupportMask m => SetSupportMask m s
  | Call.setGeometry g => SetGeometry g s
  | Call.setNumberOfIterations n => SetNumberOfIterations n s
  | Call.setMeasureExecutionTimes b => SetMeasureExecutionTimes b s
  | Call.setIterationCosts b => SetIterationCosts b s
  | Call.setGamma g => SetGamma g s
  | Call.setTikhonov t => SetTikhonov t s
  | Call.setRegularized b => SetRegularized b s
  | Call.setCudaConjugateGradient b => SetCudaConjugateGradient b s
  | Call.setDisableDisplacedDetectorFilter b => SetDisableDisplacedDetectorFilter b s
  | Call.setTargetSumOfSquaresBetweenConsecutiveIterates v =>
    SetTargetSumOfSquaresBetweenConsecutiveIterates v s
  | Call.generateOutputInformation => GenerateOutputInformation s
  | Call.generateData env fuel elapsed => (GenerateData env fuel elapsed s).getD s

/-- The state of a filter object after a sequence of calls, first call first. -/
def Run (calls : List (Call Img Msk Geo))
    (s : ConjugateGradientConeBeamReconstructionFilter Img Msk Geo) :
    ConjugateGradientConeBeamReconstructionFilter Img Msk Geo :=
  calls.foldl (fun state c => c.apply state) s

/-- Whether a call sets one of the two regularization weights. -/
def Call.setsRegularization : Call Img Msk Geo → Bool
  | Call.setGamma _ => true
  | Call.setTikhonov _ => true
  | _ => false

/-- The weighted projections as the claims describe them: the matrix-vector
product of input 1 with the displaced-detector-filtered input 2. -/
def ExpectedWeightedProjections (env : Backend Img Msk Geo) (p : Parameters Img Msk Geo)
    (in1 in2 : Img) : VectorImage :=
  env.matrixVectorMultiply (env.image in1)
    (env.displacedDetector false p.disableDisplacedDetectorFilter p.geometry (env.image in2))

/-- The right-hand side `B` as the claims describe it: the weighted projections
back projected onto a zero volume laid out like input 0, times the support mask
when there is one. -/
def ExpectedRightHandSide (env : Backend Img Msk Geo) (p : Parameters Img Msk Geo)
    (in0 in1 in2 : Img) : VectorImage :=
  match p.supportMask with
  | none =>
    env.backProjection p.geometry (env.constantImageSource 0 (some in0))
      (ExpectedWeightedProjections env p in1 in2)
  | some m =>
    MultiplyImage
      (env.backProjection p.geometry (env.constantImageSource 0 (some in0))
        (ExpectedWeightedProjections env p in1 in2))
      (env.mask m)

/-- The cost constant `GenerateData` hands the solver when costs are tracked,
and the default 0 otherwise. -/
def ExpectedCostConstant (env : Backend Img Msk Geo) (p : Parameters Img Msk Geo)
    (in1 in2 : Img) : ℚ :=
  if p.iterationCosts then
    (1 / 2) * StatisticsSum (DotProductImage (ExpectedWeightedProjections env p in1 in2)
      (env.image in1))
  else 0

/-- The operator settings a metadata phase with parameters `p` leaves. -/
def ExpectedOperator (p : Parameters Img Msk Geo) (in1 : Img) : CGOperator Img Msk Geo :=
  { input1 := some (DataRef.image in1)
    input2 := some DataRef.displacedDetector
    m_SupportMask := p.supportMask
    m_Geometry := p.geometry
    m_Gamma := p.gamma
    m_Tikhonov := p.tikhonov }

/-- The final iterate of the solver for parameters `p`. -/
def ExpectedSolverOutput (env : Backend Img Msk Geo) (p : Parameters Img Msk Geo)
    (in0 in1 in2 : Img) : VectorImage :=
  env.conjugateGradient
    (env.normalOperator (env.image in1)
      (env.displacedDetector false p.disableDisplacedDetectorFilter p.geometry (env.image in2))
      (p.supportMask.map env.mask) p.geometry p.gamma p.tikhonov)
    (ExpectedRightHandSide env p in0 in1 in2) (env.image in0) p.numberOfIterations
    p.targetSumOfSquaresBetweenConsecutiveIterates p.iterationCosts
    (ExpectedCostConstant env p in1 in2)

/-- The output volume for parameters `p`: the final iterate, times the support
mask when there is one. -/
def ExpectedOutput (env : Backend Img Msk Geo) (p : Parameters Img Msk Geo)
    (in0 in1 in2 : Img) : VectorImage :=
  match p.supportMask with
  | none => ExpectedSolverOutput env p in0 in1 in2
  | some m => MultiplyImage (ExpectedSolverOutput env p in0 in1 in2) (env.mask m)

/-- What a metadata phase hands on: the solver's `A`, `B` (the pointer and the
pixels it delivers), `X`, iteration count and early-stop target, the settings
of the operator, and the output volume the execution phase then exposes. -/
structure MetadataView (Img Msk Geo : Type) where
  A : Option OperatorRef
  B : Option (DataRef Img)
  pixelsOfB : Option VectorImage
  X : Option (DataRef Img)
  numberOfIterations : Int
  target : ℚ
  operator : CGOperator Img Msk Geo
  output : Option VectorImage

/-- The view of a filter state; `none` before the first metadata phase. -/
def View (env : Backend Img Msk Geo) (fuel : Nat)
    (s : ConjugateGradientConeBeamReconstructionFilter Img Msk Geo) :
    Option (MetadataView Img Msk Geo) :=
  s.m_ConjugateGradientFilter.map fun cg =>
    { A := cg.m_A
      B := cg.m_B
      pixelsOfB := cg.m_B.bind (UpdateData env s fuel)
      X := cg.m_X
      numberOfIterations := cg.m_NumberOfIterations
      target := cg.m_TargetSumOfSquaresBetweenConsecutiveIterates
      operator := s.m_CGOperator
      output := (GenerateData env fuel 0 s).bind fun t => t.output }

/-- The view a metadata phase with parameters `p` hands on. -/
def ExpectedView (env : Backend Img Msk Geo) (p : Parameters Img Msk Geo) (in0 in1 in2 : Img) :
    MetadataView Img Msk Geo :=
  { A := some OperatorRef.cgOperator
    B := some (if p.supportMask.isSome then DataRef.multiplyVolume else DataRef.backProjectionForB)
    pixelsOfB := some (ExpectedRightHandSide env p in0 in1 in2)
    X := some (DataRef.image in0)
    numberOfIterations := p.numberOfIterations
    target := p.targetSumOfSquaresBetweenConsecutiveIterates
    operator := ExpectedOperator p in1
    output := some (ExpectedOutput env p in0 in1 in2) }

/-- The permanent parameters the constructor sets and no call changes: the
constant of the volume source is 0, the displaced detector filter does not pad
on the truncated side, three inputs are required. -/
def Permanent (s : ConjugateGradientConeBeamReconstructionFilter Img Msk Geo) : Prop :=
  s.m_ConstantVolumeSource.m_Constant = 0 ∧
  s.m_DisplacedDetectorFilter.m_PadOnTruncatedSide = false ∧
  s.numberOfRequiredInputs = 3

end ConjugateGradientConeBeamReconstructionFilter

/-! ### Example data -/

namespace Example

open ConjugateGradientConeBeamReconstructionFilter

/-- A backend on two-pixel images of two components, with the conjugate
gradient solver of the spec. -/
def env : Backend Nat Nat Nat :=
  { image := fun i => [[(i : ℚ), 1], [2, 3]]
    mask := fun _ => [1, 0]
    constantImageSource := fun c _ => [[c, c], [c, c]]
    displacedDetector := fun _ _ _ x => x
    backProjection := fun _ volume projections => AddImage volume projections
    matrixVectorMultiply := fun m v => List.zipWith (List.zipWith (fun a b => a * b)) m v
    normalOperator := fun _ _ _ _ gamma tikhonov x => AddImage x (ScaleImage (gamma + tikhonov) x)
    conjugateGradient := fun A B X N target costs C =>
      (ConjugateGradientImageFilter.solve A B X N target costs C).x }

/-- The three inputs and a geometry set on a new filter. -/
def calls : List (Call Nat Nat Nat) :=
  [Call.setInput0 (some 0), Call.setInput1 (some 1), Call.setInput2 (some 2),
   Call.setGeometry (some 7)]

/-- The same with a support mask. -/
def maskedCalls : List (Call Nat Nat Nat) :=
  calls ++ [Call.setSupportMask (some 3)]

/-- Parameters with the three inputs set and one iteration. -/
def parameters : Parameters Nat Nat Nat :=
  { input0 := some 0, input1 := some 1, input2 := some 2, supportMask := some 3,
    geometry := some 7, numberOfIterations := 1, measureExecutionTimes := false,
    iterationCosts := false, gamma := 0, tikhonov := 0, regularized := false,
    cudaConjugateGradient := true, disableDisplacedDetectorFilter := false,
    targetSumOfSquaresBetweenConsecutiveIterates := 0 }

end Example

namespace Example
open ConjugateGradientConeBeamReconstructionFilter
end Example

/-! ### `rtk::WarpFourDToProjectionStackImageFilter` -/

namespace WarpFourDToProjectionStackImageFilter

/-- The value an `int` takes when an `unsigned int` is assigned to it (both 32
bits wide), as in `m_ProjectionNumber = IndicesOfProjectionsSortedByPhase[i]`. -/
def toInt (v : Nat) : Int :=
  if v % 2 ^ 32 < 2 ^ 31 then ((v % 2 ^ 32 : Nat) : Int) else ((v % 2 ^ 32 : Nat) : Int) - 2 ^ 32

/-- The part of the filter state `GenerateData` works on: the signal, the
current projection number (an `int` of the superclass), the index along the
last dimension of the paste region, of the constant projection stack source
and of the source region and destination of the paste filter, whether the
paste filter writes into its own previous output, the projection number of the
interpolation filter, the frame of the DVF interpolator, the destination index
of each `Update()` of the paste filter in the order they were made, whether
the output was grafted and whether the data of the DVF interpolator was
released. -/
structure State where
  m_Signal : List ℚ
  m_ProjectionNumber : Int
  pasteRegionIndex : Int
  sourceIndex : Int
  pasteSourceRegionIndex : Int
  pasteDestinationIndex : Int
  destinationIsPreviousOutput : Bool
  interpolationProjectionNumber : Int
  frame : Int
  updates : List Int
  grafted : Bool
  released : Bool

/-- The test of the loop body: the current projection is in the requested
region of the input projection stack. -/
def inRequestedRegion (FirstProj NumberProjs projectionNumber : Int) : Bool :=
  decide (projectionNumber ≥ FirstProj) && decide (projectionNumber < FirstProj + NumberProjs)

/-- One pass of the loop body of `GenerateData` for the entry `p` of the
sorting permutation; the `Bool` is the local `firstProjectionProcessed`. -/
def processProjection (FirstProj NumberProjs : Int) (st : State × Bool) (p : Nat) :
    State × Bool :=
  let s : State := { st.1 with m_ProjectionNumber := toInt p }
  if inRequestedRegion FirstProj NumberProjs s.m_ProjectionNumber then
    -- After the first update, we need to use the output as input.
    let s : State := if st.2 then { s with destinationIsPreviousOutput := true } else s
    -- Update the paste region
    let s : State := { s with pasteRegionIndex := s.m_ProjectionNumber }
    -- Set the projection stack source
    let s : State := { s with sourceIndex := s.pasteRegionIndex }
    -- Set the Paste Filter
    let s : State := { s with pasteSourceRegionIndex := s.pasteRegionIndex }
    let s : State := { s with pasteDestinationIndex := s.pasteRegionIndex }
    -- Set the Interpolation filter
    let s : State := { s with interpolationProjectionNumber := s.m_ProjectionNumber }
    -- Set the DVF interpolator
    let s : State := { s with frame := s.m_ProjectionNumber }
    -- Update the last filter
    let s : State := { s with updates := s.updates ++ [s.pasteDestinationIndex] }
    (s, true)
  else (s, st.2)

/-- The method `GenerateData()`.  `NumberProjs` and `FirstProj` are the size
and the index of the requested region of the input projection stack along the
last dimension; `IndicesOfProjectionsSortedByPhase` is what
`GetSortingPermutation<double>(m_Signal)` returned, and an entry past its end
is read as 0. -/
def GenerateData (NumberProjs FirstProj : Int) (IndicesOfProjectionsSortedByPhase : List Nat)
    (s : State) : State :=
  let looped := (List.range s.m_Signal.length).foldl
    (fun st i =>
      processProjection FirstProj NumberProjs st (IndicesOfProjectionsSortedByPhase.getD i 0))
    (s, false)
  { looped.1 with grafted := true, released := true }

/-- The projection numbers `GenerateData` updated the paste filter for, in the
order of the updates: the updates it added to those made before. -/
def processed (NumberProjs FirstProj : Int) (IndicesOfProjectionsSortedByPhase : List Nat)
    (s : State) : List Int :=
  (GenerateData NumberProjs FirstProj IndicesOfProjectionsSortedByPhase s).updates.drop
    s.updates.length

/-- The signal value of projection `p`. -/
def phase (signal : List ℚ) (p : Nat) : ℚ :=
  signal.getD p 0

/-- What the claim assumes of `GetSortingPermutation`: its result is a
permutation of `0 .. n-1`, `n` the number of signal values, that orders the
signal values non-decreasingly. -/
def IsSortingPermutation (signal : List ℚ) (permutation : List Nat) : Prop :=
  permutation.Perm (List.range signal.length) ∧
  permutation.Pairwise (fun a b => phase signal a ≤ phase signal b)

end WarpFourDToProjectionStackImageFilter

namespace Example

/-- A filter state with four signal values, nothing processed yet. -/
def warpState : WarpFourDToProjectionStackImageFilter.State :=
  { m_Signal := [1 / 2, 1 / 10, 1 / 2, 3 / 10]
    m_ProjectionNumber := 0
    pasteRegionIndex := 0
    sourceIndex := 0
    pasteSourceRegionIndex := 0
    pasteDestinationIndex := 0
    destinationIsPreviousOutput := false
    interpolationProjectionNumber := 0
    frame := 0
    updates := []
    grafted := false
    released := false }

end Example

/-! ### `rtk::XRadImageIO` -/

namespace XRadImageIO

/-- The constant `std::string::npos`, the largest `size_t` (64 bits). -/
def npos : Nat := 2 ^ 64 - 1

/-- The value of a `size_t` expression stored in an `unsigned int` (32 bits). -/
def toUnsignedInt (v : Nat) : Nat := v % 2 ^ 32

/-- The search `std::string::find(c)`: the index of the first `c`, or `npos`. -/
def find (s : List Char) (c : Char) : Nat :=
  if c ∈ s then s.indexOf c else npos

/-- The search `std::string::find_last_of` with a one-character set: the index
of the last `c`, or `npos`. -/
def find_last_of (s : List Char) (c : Char) : Nat :=
  if c ∈ s then s.length - 1 - s.reverse.indexOf c else npos

/-- What `ReadImageInformation` can throw: the file cannot be opened, a
`substr` starts past the end of the string, `std::stoi` or `std::stod` cannot
convert. -/
inductive Error where
  | couldNotOpenFile
  | outOfRange
  | invalidArgument
  deriving DecidableEq, Repr

/-- The call `s.substr(pos, count)`, also the constructor
`std::string(s, pos, count)`: it throws when `pos > s.size()`, else gives at
most `count` characters from `pos` on. -/
def substr (s : List Char) (pos count : Nat) : Except Error (List Char) :=
  if pos > s.length then Except.error Error.outOfRange
  else Except.ok ((s.drop pos).take count)

/-- The component types `ReadImageInformation` can set, and the one an image
IO starts with. -/
inductive IOComponentEnum where
  | UNKNOWNCOMPONENTTYPE
  | USHORT
  | FLOAT
  deriving DecidableEq, Repr

/-- The state of an `XRadImageIO` object as far as `ReadImageInformation`
touches it.  The arrays of `itk::ImageIOBase` are total maps from the axis. -/
structure State where
  m_FileName : List Char
  m_NumberOfDimensions : Nat
  m_Dimensions : Nat → Nat
  m_Spacing : Nat → ℚ
  m_ComponentType : IOComponentEnum
  metaDataDictionary : List (List Char × List Char)

/-- The call `SetDimensions(i, dim)`; the `int` that `std::stoi` returned is
converted to the unsigned 64-bit `SizeValueType`. -/
def SetDimensions (i : Nat) (dim : Int) (s : State) : State :=
  { s with m_Dimensions := Function.update s.m_Dimensions i (dim % 2 ^ 64).toNat }

/-- The call `SetSpacing(i, spacing)`. -/
def SetSpacing (i : Nat) (spacing : ℚ) (s : State) : State :=
  { s with m_Spacing := Function.update s.m_Spacing i spacing }

/-- The call `itk::EncapsulateMetaData<std::string>(dictionary, key, value)`:
the entry for `key` is set to `value`. -/
def EncapsulateMetaData (key value : List Char) (s : State) : State :=
  { s with
    metaDataDictionary := (key, value) :: s.metaDataDictionary.filter (fun entry => entry.1 ≠ key) }

/-- The result of `std::stoi` or `std::stod`, which throw when they cannot
convert. -/
def converted {α : Type} (value : Option α) : Except Error α :=
  match value with
  | some v => Except.ok v
  | none => Except.error Error.invalidArgument

/-- The body of `if (line.find('=') != npos)`, from the comparison of
`paramName` on (lines 53 to 85 of the source).  `stoi` and `stod` are the
conversions of the standard library. -/
def SetParameter (stoi : List Char → Option Int) (stod : List Char → Option ℚ)
    (sectionName paramName paramValue : List Char) (s : State) : Except Error State :=
  if paramName = "CBCT.DimensionalAttributes.IDim".toList then
    (converted (stoi paramValue)).map fun v => SetDimensions 0 v s
  else if paramName = "CBCT.DimensionalAttributes.JDim".toList then
    (converted (stoi paramValue)).map fun v => SetDimensions 1 v s
  else if paramName = "CBCT.DimensionalAttributes.KDim".toList then
    (converted (stoi paramValue)).map fun v => SetDimensions 2 v s
  else if paramName = "CBCT.DimensionalAttributes.DataSize".toList then
    (converted (stoi paramValue)).map fun v =>
      let s : State := if v = 3 then { s with m_ComponentType := IOComponentEnum.FLOAT } else s
      let s : State := if v = 6 then { s with m_ComponentType := IOComponentEnum.USHORT } else s
      s
  else if paramName = "CBCT.DimensionalAttributes.PixelDimension_I_cm".toList then
    (converted (stod paramValue)).map fun v =>
      let spacing : ℚ := 10 * v
      SetSpacing 0 (if spacing = 0 then 1 else spacing) s
  else if paramName = "CBCT.DimensionalAttributes.PixelDimension_J_cm".toList then
    (converted (stod paramValue)).map fun v =>
      let spacing : ℚ := 10 * v
      SetSpacing 1 (if spacing = 0 then 1 else spacing) s
  else if paramName = "CBCT.DimensionalAttributes.PixelDimension_K_cm".toList then
    (converted (stod paramValue)).map fun v =>
      let spacing : ℚ := 10 * v
      SetSpacing 2 (if spacing = 0 then 1 else spacing) s
  else
    Except.ok (EncapsulateMetaData (sectionName ++ "_".toList ++ paramName) paramValue s)

/-- The new value of `section` after a line: the text between the first `[`
and the first `]` when the line has a `[`, with the positions held in
`unsigned int`. -/
def readSection (sectionName line : List Char) : Except Error (List Char) :=
  if find line '[' ≠ npos then
    let pos1 := toUnsignedInt (find line '[')
    let pos2 := toUnsignedInt (find line ']')
    substr line ((pos1 + 1) % 2 ^ 32) ((pos2 + 2 ^ 32 - pos1 + 2 ^ 32 - 1) % 2 ^ 32)
  else Except.ok sectionName

/-- The body of the `while` loop for one line that `std::getline` returned;
the state carries the local `section`. -/
def readLine (stoi : List Char → Option Int) (stod : List Char → Option ℚ)
    (st : State × List Char) (line : List Char) : Except Error (State × List Char) :=
  (readSection st.2 line).bind fun sectionName =>
  if find line '=' ≠ npos then
    let pos := toUnsignedInt (find line '=')
    (substr line 0 pos).bind fun paramName =>
    (substr line ((pos + 1) % 2 ^ 32) ((line.length + 2 ^ 64 - pos - 1) % 2 ^ 64)).bind
      fun paramValue =>
    (SetParameter stoi stod sectionName paramName paramValue st.1).map fun s =>
      (s, sectionName)
  else Except.ok (st.1, sectionName)

/-- The loop over the lines, first line first. -/
def readLines (stoi : List Char → Option Int) (stod : List Char → Option ℚ) :
    List (List Char) → State × List Char → Except Error (State × List Char)
  | [], st => Except.ok st
  | line :: rest, st => (readLine stoi stod st line).bind (readLines stoi stod rest)

/-- The method `ReadImageInformation()`.  `file` is what opening `m_FileName`
gives: `none` when it cannot be opened, else the lines `std::getline` returns
until the end of the file. -/
def ReadImageInformation (stoi : List Char → Option Int) (stod : List Char → Option ℚ)
    (file : Option (List (List Char))) (s : State) : Except Error State :=
  match file with
  | none => Except.error Error.couldNotOpenFile
  | some lines =>
    let s : State := { s with m_NumberOfDimensions := 3 }
    (readLines stoi stod lines (s, [])).map fun st => st.1

/-- The method `CanReadFile(FileNameToRead)`: the characters after the last
`.` are compared with `header`; `it + 1` is computed in `size_t`. -/
def CanReadFile (FileNameToRead : List Char) : Except Error Bool :=
  let filename := FileNameToRead
  let it := find_last_of filename '.'
  (substr filename ((it + 1) % 2 ^ 64) filename.length).map fun fileExt =>
    if fileExt ≠ "header".toList then false else true

/-- The characters after the last `.` of a name, the whole name when it has
none: the claim's reading of the extension. -/
def afterLastDot (name : List Char) : List Char :=
  (name.reverse.takeWhile (fun c => c ≠ '.')).reverse

/-- The name of the header parameter that holds the pixel size along an axis. -/
def pixelDimensionName (axis : Nat) : List Char :=
  match axis with
  | 0 => "CBCT.DimensionalAttributes.PixelDimension_I_cm".toList
  | 1 => "CBCT.DimensionalAttributes.PixelDimension_J_cm".toList
  | _ => "CBCT.DimensionalAttributes.PixelDimension_K_cm".toList

end XRadImageIO

namespace Example

/-- An image IO before a header is read. -/
def imageIO : XRadImageIO.State :=
  { m_FileName := "scan.header".toList
    m_NumberOfDimensions := 2
    m_Dimensions := fun _ => 0
    m_Spacing := fun _ => 1
    m_ComponentType := XRadImageIO.IOComponentEnum.UNKNOWNCOMPONENTTYPE
    metaDataDictionary := [] }

/-- A stand-in for `std::stod` that knows three texts. -/
def stod (text : List Char) : Option ℚ :=
  if text = "0.02".toList then some (1 / 50)
  else if text = "0".toList then some 0
  else if text = "0.5".toList then some (1 / 2)
  else none

/-- A stand-in for `std::stoi` that knows three texts. -/
def stoi (text : List Char) : Option Int :=
  if text = "512".toList then some 512
  else if text = "3".toList then some 3
  else if text = "6".toList then some 6
  else none

/-- A header with a section, two sizes, a data size, two pixel dimensions (one
of them zero) and a free parameter. -/
def header : List (List Char) :=
  ["[CBCT]".toList,
   "CBCT.DimensionalAttributes.IDim=512".toList,
   "CBCT.DimensionalAttributes.DataSize=6".toList,
   "CBCT.DimensionalAttributes.PixelDimension_I_cm=0.02".toList,
   "CBCT.DimensionalAttributes.PixelDimension_K_cm=0".toList,
   "Operator=somebody".toList,
   "".toList]

end Example

/-! ## Part 2. Theorems -/

namespace ProjectionGeometry

variable {MatrixType : Type}

theorem GetMatrix_of_lt (g : ProjectionGeometry MatrixType) (i : Nat)
    (h : i < g.m_Matrices.length) :
    g.GetMatrix i = Except.ok (g.m_Matrices.get ⟨i, h⟩) := by
  unfold GetMatrix
  rw [dif_neg (Nat.not_le.mpr h)]

theorem GetMatrix_of_ge (g : ProjectionGeometry MatrixType) (i : Nat)
    (h : g.m_Matrices.length ≤ i) :
    g.GetMatrix i = Except.error (ExceptionObject.matrixIndexOutOfBound i) := by
  unfold GetMatrix
  rw [dif_pos h]

theorem AddMatrix_matrices (g : ProjectionGeometry MatrixType) (m : MatrixType) :
    (g.AddMatrix m).m_Matrices = g.m_Matrices ++ [m] := rfl

theorem AddMatrices_matrices (ms : List MatrixType) :
    ∀ g : ProjectionGeometry MatrixType,
      (g.AddMatrices ms).m_Matrices = g.m_Matrices ++ ms := by
  induction ms with
  | nil => intro g; simp [AddMatrices]
  | cons m ms ih =>
    intro g
    have := ih (g.AddMatrix m)
    simp only [AddMatrices, List.foldl_cons] at this ⊢
    rw [this, AddMatrix_matrices, List.append_assoc, List.singleton_append]

/-- C1. `GetMatrix(i)` throws exactly when `i` is at least the number of stored
matrices (so it throws at `i = GetMatrices().size()`), and for every smaller
`i` it returns the element at position `i` of `GetMatrices()`. -/
theorem C1_GetMatrix_bounds (g : ProjectionGeometry MatrixType) (i : Nat) :
    ((∃ e, g.GetMatrix i = Except.error e) ↔ i ≥ g.GetMatrices.length) ∧
    (∃ e, g.GetMatrix g.GetMatrices.length = Except.error e) ∧
    (∀ h : i < g.GetMatrices.length,
      g.GetMatrix i = Except.ok (g.GetMatrices.get ⟨i, h⟩)) := by
  refine ⟨⟨?_, ?_⟩, ?_, ?_⟩
  · rintro ⟨e, he⟩
    by_contra hlt
    rw [GetMatrix_of_lt g i (Nat.lt_of_not_ge hlt)] at he
    cases he
  · intro h
    exact ⟨_, GetMatrix_of_ge g i h⟩
  · exact ⟨_, GetMatrix_of_ge g _ (Nat.le_refl _)⟩
  · intro h
    exact GetMatrix_of_lt g i h

/-- C1 on a geometry holding the matrices 10, 20: index 2 throws, index 1 gives 20. -/
theorem C1_GetMatrix_bounds_witness :
    (ProjectionGeometry.mk [10, 20] 0).GetMatrix 2
        = Except.error (ExceptionObject.matrixIndexOutOfBound 2) ∧
    (ProjectionGeometry.mk [10, 20] 0).GetMatrix 1 = Except.ok 20 := by
  have h := C1_GetMatrix_bounds (ProjectionGeometry.mk [10, 20] 0) 1
  exact ⟨rfl, h.2.2 (by decide)⟩

/-- C2. `AddMatrix(m)` turns the stored sequence into the old sequence followed
by `m`: the size grows by one, every index valid before returns the same
matrix, the new last index returns `m`, and the modification time moves
forward. -/
theorem C2_AddMatrix_appends (g : ProjectionGeometry MatrixType) (m : MatrixType) :
    (g.AddMatrix m).GetMatrices = g.GetMatrices ++ [m] ∧
    (g.AddMatrix m).GetMatrices.length = g.GetMatrices.length + 1 ∧
    (∀ i, i < g.GetMatrices.length → (g.AddMatrix m).GetMatrix i = g.GetMatrix i) ∧
    (g.AddMatrix m).GetMatrix g.GetMatrices.length = Except.ok m ∧
    g.m_MTime < (g.AddMatrix m).m_MTime := by
  refine ⟨rfl, ?_, ?_, ?_, ?_⟩
  · simp [GetMatrices, AddMatrix_matrices]
  · intro i hi
    have hi2 : i < (g.AddMatrix m).m_Matrices.length := by
      rw [AddMatrix_matrices, List.length_append]
      exact Nat.lt_add_right _ hi
    rw [GetMatrix_of_lt _ i hi2, GetMatrix_of_lt g i hi]
    congr 1
    simp only [List.get_eq_getElem, AddMatrix_matrices]
    exact List.getElem_append_left hi
  · have hlt : g.GetMatrices.length < (g.AddMatrix m).m_Matrices.length := by
      rw [AddMatrix_matrices, List.length_append]
      simp [GetMatrices]
    rw [GetMatrix_of_lt _ _ hlt]
    congr 1
    simp [GetMatrices, AddMatrix_matrices]
  · simp [AddMatrix, Modified]

/-- C2 at the geometry holding 10, 20 and the new matrix 30. -/
theorem C2_AddMatrix_appends_witness :
    ((ProjectionGeometry.mk [10, 20] 5).AddMatrix 30).GetMatrices = [10, 20, 30] ∧
    ((ProjectionGeometry.mk [10, 20] 5).AddMatrix 30).GetMatrix 1 = Except.ok 20 ∧
    ((ProjectionGeometry.mk [10, 20] 5).AddMatrix 30).GetMatrix 2 = Except.ok 30 := by
  have h := C2_AddMatrix_appends (ProjectionGeometry.mk [10, 20] 5) 30
  exact ⟨h.1, (h.2.2.1 1 (by decide)).trans rfl, h.2.2.2.1⟩

/-- C3. Appending a non-empty list of matrices, in order, to an empty geometry
makes `GetMatrices()` that list, `GetMatrix(k)` the `k`-th appended matrix for
every `k` below its length, and `GetMatrix(0)` the first appended matrix. -/
theorem C3_append_then_read (ms : List MatrixType) (hne : ms ≠ []) :
    ((new : ProjectionGeometry MatrixType).AddMatrices ms).GetMatrices = ms ∧
    (∀ (k : Nat) (hk : k < ms.length),
      ((new : ProjectionGeometry MatrixType).AddMatrices ms).GetMatrix k
        = Except.ok (ms.get ⟨k, hk⟩)) ∧
    ((new : ProjectionGeometry MatrixType).AddMatrices ms).GetMatrix 0
        = Except.ok (ms.head hne) := by
  have hm : ((new : ProjectionGeometry MatrixType).AddMatrices ms).m_Matrices = ms := by
    rw [AddMatrices_matrices]
    rfl
  have hk : ∀ (k : Nat) (hk : k < ms.length),
      ((new : ProjectionGeometry MatrixType).AddMatrices ms).GetMatrix k
        = Except.ok (ms.get ⟨k, hk⟩) := by
    intro k hk
    have hk2 : k < ((new : ProjectionGeometry MatrixType).AddMatrices ms).m_Matrices.length := by
      rw [hm]
      exact hk
    rw [GetMatrix_of_lt _ k hk2]
    congr 1
    simp only [List.get_eq_getElem, hm]
  refine ⟨hm, hk, ?_⟩
  have h0 : 0 < ms.length := List.length_pos.mpr hne
  rw [hk 0 h0]
  congr 1
  cases ms with
  | nil => exact absurd rfl hne
  | cons a t => rfl

/-- C3 at the list 10, 20, 30 appended to an empty geometry. -/
theorem C3_append_then_read_witness :
    ((new : ProjectionGeometry Nat).AddMatrices [10, 20, 30]).GetMatrices = [10, 20, 30] ∧
    ((new : ProjectionGeometry Nat).AddMatrices [10, 20, 30]).GetMatrix 0 = Except.ok 10 :=
  ⟨(C3_append_then_read [10, 20, 30] (by decide)).1,
   (C3_append_then_read [10, 20, 30] (by decide)).2.2⟩

end ProjectionGeometry

/-! ### The reconstruction filter: auxiliary lemmas -/

theorem MultiplyImage_idempotent (x : VectorImage) (S : ScalarImage)
    (hS : ∀ v ∈ S, v = 0 ∨ v = 1) :
    MultiplyImage (MultiplyImage x S) S = MultiplyImage x S := by
  induction x generalizing S with
  | nil => simp [MultiplyImage]
  | cons px x ih =>
    cases S with
    | nil => simp [MultiplyImage]
    | cons c S =>
      have hc : c = 0 ∨ c = 1 := hS c (List.mem_cons_self _ _)
      have hS2 : ∀ v ∈ S, v = 0 ∨ v = 1 := fun v hv => hS v (List.mem_cons_of_mem _ hv)
      have := ih S hS2
      have hpx : (px.map (fun v => v * c)).map (fun v => v * c) = px.map (fun v => v * c) := by
        rw [List.map_map]
        apply List.map_congr_left
        intro v _
        rcases hc with rfl | rfl <;> simp
      simp only [MultiplyImage, List.zipWith_cons_cons] at this ⊢
      rw [this, hpx]

namespace ConjugateGradientImageFilter

theorem step_fields (A : VectorImage → VectorImage) (track track2 : Bool) (C C2 : ℚ)
    (st st2 : SolverState) (hx : st.x = st2.x) (hr : st.r = st2.r) (hp : st.p = st2.p) :
    (step A track C st).x = (step A track2 C2 st2).x ∧
    (step A track C st).r = (step A track2 C2 st2).r ∧
    (step A track C st).p = (step A track2 C2 st2).p := by
  simp [step, hx, hr, hp]

theorem iterate_x (A : VectorImage → VectorImage) (track track2 : Bool) (C C2 target : ℚ) :
    ∀ (n : Nat) (st st2 : SolverState), st.x = st2.x → st.r = st2.r → st.p = st2.p →
      (iterate A track C target n st).x = (iterate A track2 C2 target n st2).x := by
  intro n
  induction n with
  | zero => intro st st2 hx _ _; simpa [iterate] using hx
  | succ n ih =>
    intro st st2 hx hr hp
    obtain ⟨h1, h2, h3⟩ := step_fields A track track2 C C2 st st2 hx hr hp
    simp only [iterate]
    rw [h1, hx]
    split
    · exact h1
    · exact ih _ _ h1 h2 h3

theorem solve_x (A : VectorImage → VectorImage) (B x0 : VectorImage) (N : Int) (target : ℚ)
    (track track2 : Bool) (C C2 : ℚ) :
    (solve A B x0 N target track C).x = (solve A B x0 N target track2 C2).x :=
  iterate_x A track track2 C C2 target N.toNat _ _ rfl rfl rfl

end ConjugateGradientImageFilter

theorem Example.env_CostsAreSideChannel : Example.env.CostsAreSideChannel :=
  fun A B X N target costs costs2 C C2 =>
    ConjugateGradientImageFilter.solve_x A B X N target costs costs2 C C2

namespace ConjugateGradientConeBeamReconstructionFilter
variable {Img Msk Geo : Type}

theorem GenerateData_frame (env : Backend Img Msk Geo) (fuel : Nat) (elapsed : ℚ)
    (s t : ConjugateGradientConeBeamReconstructionFilter Img Msk Geo)
    (h : GenerateData env fuel elapsed s = some t) :
    t.m_ConstantVolumeSource = s.m_ConstantVolumeSource ∧
    t.m_DisplacedDetectorFilter = s.m_DisplacedDetectorFilter ∧
    t.numberOfRequiredInputs = s.numberOfRequiredInputs ∧
    GetParameters t = GetParameters s := by
  simp only [GenerateData, Option.bind_eq_some] at h
  obtain ⟨cg, _, cg2, _, solved, _, masked, _, ht⟩ := h
  cases ht
  split <;> split <;> exact ⟨rfl, rfl, rfl, rfl⟩

theorem apply_Permanent (c : Call Img Msk Geo)
    (s : ConjugateGradientConeBeamReconstructionFilter Img Msk Geo) (h : Permanent s) :
    Permanent (c.apply s) := by
  cases c with
  | generateData env fuel elapsed =>
    simp only [Call.apply]
    cases hg : GenerateData env fuel elapsed s with
    | none => exact h
    | some t =>
      obtain ⟨h1, h2, h3, _⟩ := GenerateData_frame env fuel elapsed s t hg
      simp only [Option.getD_some, Permanent, h1, h2, h3]
      exact h
  | _ => exact h

theorem Run_Permanent (calls : List (Call Img Msk Geo)) :
    ∀ s : ConjugateGradientConeBeamReconstructionFilter Img Msk Geo,
      Permanent s → Permanent (Run calls s) := by
  induction calls with
  | nil => intro s h; exact h
  | cons c calls ih => intro s h; exact ih _ (apply_Permanent c s h)

theorem Run_new_Permanent (calls : List (Call Img Msk Geo)) :
    Permanent (Run calls (new : ConjugateGradientConeBeamReconstructionFilter Img Msk Geo)) :=
  Run_Permanent calls _ ⟨rfl, rfl, rfl⟩

theorem apply_regularization (c : Call Img Msk Geo)
    (s : ConjugateGradientConeBeamReconstructionFilter Img Msk Geo)
    (h : c.setsRegularization = false) :
    (c.apply s).m_Gamma = s.m_Gamma ∧ (c.apply s).m_Tikhonov = s.m_Tikhonov := by
  cases c with
  | setGamma g => simp [Call.setsRegularization] at h
  | setTikhonov g => simp [Call.setsRegularization] at h
  | generateData env fuel elapsed =>
    simp only [Call.apply]
    cases hg : GenerateData env fuel elapsed s with
    | none => exact ⟨rfl, rfl⟩
    | some t =>
      obtain ⟨_, _, _, h4⟩ := GenerateData_frame env fuel elapsed s t hg
      exact ⟨congrArg Parameters.gamma h4, congrArg Parameters.tikhonov h4⟩
  | _ => exact ⟨rfl, rfl⟩

theorem Run_regularization (calls : List (Call Img Msk Geo)) :
    ∀ s : ConjugateGradientConeBeamReconstructionFilter Img Msk Geo,
      (∀ c ∈ calls, c.setsRegularization = false) →
      (Run calls s).m_Gamma = s.m_Gamma ∧ (Run calls s).m_Tikhonov = s.m_Tikhonov := by
  induction calls with
  | nil => intro s _; exact ⟨rfl, rfl⟩
  | cons c calls ih =>
    intro s h
    obtain ⟨h1, h2⟩ := ih (c.apply s) (fun d hd => h d (List.mem_cons_of_mem _ hd))
    obtain ⟨h3, h4⟩ := apply_regularization c s (h c (List.mem_cons_self _ _))
    exact ⟨h1.trans h3, h2.trans h4⟩

theorem GenerateData_output (env : Backend Img Msk Geo)
    (s : ConjugateGradientConeBeamReconstructionFilter Img Msk Geo) (hs : Permanent s)
    (in0 in1 in2 : Img)
    (h0 : s.input0 = some in0) (h1 : s.input1 = some in1) (h2 : s.input2 = some in2)
    (fuel : Nat) (elapsed : ℚ) :
    (GenerateData env (fuel + 7) elapsed (GenerateOutputInformation s)).bind (fun t => t.output)
      = some (ExpectedOutput env (GetParameters s) in0 in1 in2) := by
  obtain ⟨hc, hp, _⟩ := hs
  cases hm : s.supportMask <;> cases hi : s.m_IterationCosts <;>
    cases ht : s.m_MeasureExecutionTimes <;>
  simp [GenerateData, UpdateData, GenerateOutputInformation, h0, h1, h2, hm, hc, hp, hi, ht,
    ExpectedOutput, ExpectedSolverOutput, ExpectedRightHandSide, ExpectedCostConstant,
    ExpectedWeightedProjections, GetParameters, ConjugateGradientFilter.new]

theorem View_GenerateOutputInformation (env : Backend Img Msk Geo)
    (s : ConjugateGradientConeBeamReconstructionFilter Img Msk Geo) (hs : Permanent s)
    (in0 in1 in2 : Img)
    (h0 : s.input0 = some in0) (h1 : s.input1 = some in1) (h2 : s.input2 = some in2)
    (fuel : Nat) :
    View env (fuel + 7) (GenerateOutputInformation s)
      = some (ExpectedView env (GetParameters s) in0 in1 in2) := by
  have hout := GenerateData_output env s hs in0 in1 in2 h0 h1 h2 fuel 0
  obtain ⟨hc, hp, _⟩ := hs
  unfold View
  rw [hout]
  cases hm : s.supportMask <;>
  simp [UpdateData, GenerateOutputInformation, h0, h1, h2, hm, hc, hp,
    ExpectedView, ExpectedOperator, ExpectedRightHandSide,
    ExpectedWeightedProjections, GetParameters, ConjugateGradientFilter.new]

theorem GenerateData_after_metadata (env : Backend Img Msk Geo)
    (s : ConjugateGradientConeBeamReconstructionFilter Img Msk Geo) (hs : Permanent s)
    (in0 in1 in2 : Img)
    (h0 : s.input0 = some in0) (h1 : s.input1 = some in1) (h2 : s.input2 = some in2)
    (fuel : Nat) (elapsed : ℚ) :
    ∃ t cg,
      GenerateData env (fuel + 7) elapsed (GenerateOutputInformation s) = some t ∧
      t.m_ConjugateGradientFilter = some cg ∧
      UpdateData env t (fuel + 6) (DataRef.conjugateGradient cg.serial)
        = some (ExpectedSolverOutput env (GetParameters s) in0 in1 in2) ∧
      (∀ m, s.supportMask = some m →
        t.output = some (MultiplyImage (ExpectedSolverOutput env (GetParameters s) in0 in1 in2)
          (env.mask m))) ∧
      (s.supportMask = none →
        t.output = some (ExpectedSolverOutput env (GetParameters s) in0 in1 in2)) := by
  obtain ⟨hc, hp, _⟩ := hs
  cases hm : s.supportMask <;> cases hi : s.m_IterationCosts <;>
    cases ht : s.m_MeasureExecutionTimes <;>
  simp [GenerateData, UpdateData, GenerateOutputInformation, h0, h1, h2, hm, hc, hp, hi, ht,
    ExpectedSolverOutput, ExpectedRightHandSide, ExpectedCostConstant,
    ExpectedWeightedProjections, GetParameters, ConjugateGradientFilter.new]

theorem SetParameters_Permanent (p : Parameters Img Msk Geo)
    (s : ConjugateGradientConeBeamReconstructionFilter Img Msk Geo) (h : Permanent s) :
    Permanent (SetParameters p s) := h

theorem GetParameters_SetParameters (p : Parameters Img Msk Geo)
    (s : ConjugateGradientConeBeamReconstructionFilter Img Msk Geo) :
    GetParameters (SetParameters p s) = p := by
  cases p
  rfl

theorem ExpectedSolverOutput_flags (env : Backend Img Msk Geo) (henv : env.CostsAreSideChannel)
    (p : Parameters Img Msk Geo) (in0 in1 in2 : Img) (costs times : Bool) :
    ExpectedSolverOutput env { p with iterationCosts := costs, measureExecutionTimes := times }
        in0 in1 in2
      = ExpectedSolverOutput env p in0 in1 in2 := by
  unfold ExpectedSolverOutput
  exact henv _ _ _ _ _ _ _ _ _

theorem ExpectedOutput_flags (env : Backend Img Msk Geo) (henv : env.CostsAreSideChannel)
    (p : Parameters Img Msk Geo) (in0 in1 in2 : Img) (costs times : Bool) :
    ExpectedOutput env { p with iterationCosts := costs, measureExecutionTimes := times }
        in0 in1 in2
      = ExpectedOutput env p in0 in1 in2 := by
  unfold ExpectedOutput
  rw [ExpectedSolverOutput_flags env henv]

theorem metadata_and_execution (env : Backend Img Msk Geo)
    (calls : List (Call Img Msk Geo)) (p : Parameters Img Msk Geo) (in0 in1 in2 : Img)
    (h0 : p.input0 = some in0) (h1 : p.input1 = some in1) (h2 : p.input2 = some in2)
    (fuel : Nat) (elapsed : ℚ) :
    ∃ cg t,
      (GenerateOutputInformation (SetParameters p (Run calls new))).m_ConjugateGradientFilter
        = some cg ∧
      cg.m_A = some OperatorRef.cgOperator ∧
      (GenerateOutputInformation (SetParameters p (Run calls new))).m_CGOperator
        = ExpectedOperator p in1 ∧
      cg.m_B = some (if p.supportMask.isSome then DataRef.multiplyVolume
        else DataRef.backProjectionForB) ∧
      cg.m_B.bind (UpdateData env (GenerateOutputInformation (SetParameters p (Run calls new)))
        (fuel + 7)) = some (ExpectedRightHandSide env p in0 in1 in2) ∧
      cg.m_X = some (DataRef.image in0) ∧
      cg.m_NumberOfIterations = p.numberOfIterations ∧
      cg.m_TargetSumOfSquaresBetweenConsecutiveIterates
        = p.targetSumOfSquaresBetweenConsecutiveIterates ∧
      GenerateData env (fuel + 7) elapsed
        (GenerateOutputInformation (SetParameters p (Run calls new))) = some t ∧
      t.output = some (ExpectedOutput env p in0 in1 in2) := by
  have hp : Permanent (SetParameters p (Run calls new)) :=
    SetParameters_Permanent p _ (Run_new_Permanent calls)
  have v := View_GenerateOutputInformation env _ hp in0 in1 in2 h0 h1 h2 fuel
  have o := GenerateData_output env _ hp in0 in1 in2 h0 h1 h2 fuel elapsed
  rw [GetParameters_SetParameters] at v o
  simp only [View, Option.map_eq_some'] at v
  obtain ⟨cg, hcg, e⟩ := v
  obtain ⟨t, ht, ho⟩ := Option.bind_eq_some.mp o
  exact ⟨cg, t, hcg, congrArg MetadataView.A e, congrArg MetadataView.operator e,
    congrArg MetadataView.B e, congrArg MetadataView.pixelsOfB e, congrArg MetadataView.X e,
    congrArg MetadataView.numberOfIterations e, congrArg MetadataView.target e, ht, ho⟩

/-! ### The reconstruction filter: the claims -/

/-- C4. After the metadata phase the right-hand side `B` of the solver is the
back projection, onto the zero volume laid out like input 0, of the
matrix-vector product of input 1 with the displaced-detector-filtered input 2;
with a support mask it is that back projection times the mask, pixel by pixel,
and without one it is that back projection itself. -/
theorem C4_right_hand_side (env : Backend Img Msk Geo) (calls : List (Call Img Msk Geo))
    (s : ConjugateGradientConeBeamReconstructionFilter Img Msk Geo) (hs : s = Run calls new)
    (in0 in1 in2 : Img)
    (h0 : s.input0 = some in0) (h1 : s.input1 = some in1) (h2 : s.input2 = some in2)
    (fuel : Nat) :
    ∃ cg bref,
      (GenerateOutputInformation s).m_ConjugateGradientFilter = some cg ∧
      cg.m_B = some bref ∧
      (∀ m, s.supportMask = some m →
        UpdateData env (GenerateOutputInformation s) (fuel + 5) bref
          = some (MultiplyImage
              (env.backProjection s.m_Geometry (env.constantImageSource 0 (some in0))
                (env.matrixVectorMultiply (env.image in1)
                  (env.displacedDetector false s.m_DisableDisplacedDetectorFilter s.m_Geometry
                    (env.image in2))))
              (env.mask m))) ∧
      (s.supportMask = none →
        UpdateData env (GenerateOutputInformation s) (fuel + 5) bref
          = some (env.backProjection s.m_Geometry (env.constantImageSource 0 (some in0))
                (env.matrixVectorMultiply (env.image in1)
                  (env.displacedDetector false s.m_DisableDisplacedDetectorFilter s.m_Geometry
                    (env.image in2))))) := by
  obtain ⟨hc, hp, _⟩ : Permanent s := hs ▸ Run_new_Permanent calls
  cases hm : s.supportMask <;>
  simp [UpdateData, GenerateOutputInformation, h0, h1, h2, hm, hc, hp,
    ConjugateGradientFilter.new]

/-- C4 on the example filter with a support mask: `B` is the output of the
volume multiply filter and its pixels are the masked back projection. -/
theorem C4_right_hand_side_witness :
    UpdateData Example.env
      (GenerateOutputInformation (Run Example.maskedCalls
        (new : ConjugateGradientConeBeamReconstructionFilter Nat Nat Nat)))
      5 DataRef.multiplyVolume
      = some (MultiplyImage
          (Example.env.backProjection (some 7) (Example.env.constantImageSource 0 (some 0))
            (Example.env.matrixVectorMultiply (Example.env.image 1)
              (Example.env.displacedDetector false false (some 7) (Example.env.image 2))))
          (Example.env.mask 3)) := by
  obtain ⟨cg, bref, hcg, hb, hmask, _⟩ :=
    C4_right_hand_side Example.env Example.maskedCalls _ rfl 0 1 2 rfl rfl rfl 0
  cases hcg
  cases hb
  exact hmask 3 rfl

/-- C5. The execution phase exposes one output volume: with a support mask it
is the final iterate of the solver times the mask, pixel by pixel, and without
one it is the final iterate unchanged. -/
theorem C5_output_volume (env : Backend Img Msk Geo) (calls : List (Call Img Msk Geo))
    (s : ConjugateGradientConeBeamReconstructionFilter Img Msk Geo) (hs : s = Run calls new)
    (in0 in1 in2 : Img)
    (h0 : s.input0 = some in0) (h1 : s.input1 = some in1) (h2 : s.input2 = some in2)
    (fuel : Nat) (elapsed : ℚ) :
    ∃ t cg x,
      GenerateData env (fuel + 7) elapsed (GenerateOutputInformation s) = some t ∧
      t.m_ConjugateGradientFilter = some cg ∧
      UpdateData env t (fuel + 6) (DataRef.conjugateGradient cg.serial) = some x ∧
      (∀ m, s.supportMask = some m → t.output = some (MultiplyImage x (env.mask m))) ∧
      (s.supportMask = none → t.output = some x) := by
  obtain ⟨t, cg, h⟩ := GenerateData_after_metadata env s (hs ▸ Run_new_Permanent calls)
    in0 in1 in2 h0 h1 h2 fuel elapsed
  exact ⟨t, cg, _, h⟩

/-- C5 on the example filter with the support mask 3: the output is the final
iterate times the mask. -/
theorem C5_output_volume_witness :
    ∃ t cg x,
      GenerateData Example.env 7 0
        (GenerateOutputInformation (Run Example.maskedCalls
          (new : ConjugateGradientConeBeamReconstructionFilter Nat Nat Nat))) = some t ∧
      t.m_ConjugateGradientFilter = some cg ∧
      UpdateData Example.env t 6 (DataRef.conjugateGradient cg.serial) = some x ∧
      t.output = some (MultiplyImage x (Example.env.mask 3)) := by
  obtain ⟨t, cg, x, ht, hcg, hx, hsome, _⟩ :=
    C5_output_volume Example.env Example.maskedCalls _ rfl 0 1 2 rfl rfl rfl 0 0
  exact ⟨t, cg, x, ht, hcg, hx, hsome 3 rfl⟩

/-- C6. The metadata phase is idempotent and re-runnable: after any sequence
of earlier calls, running it with the current inputs and parameters hands on
the same `A`, `B`, `X`, iteration count, early-stop target, operator settings
(inputs, mask, geometry, gamma, tikhonov) and later output as one run on a new
filter given the same inputs and parameters; and running it twice in a row
hands on what running it once does. -/
theorem C6_metadata_idempotent (env : Backend Img Msk Geo) (calls : List (Call Img Msk Geo))
    (s : ConjugateGradientConeBeamReconstructionFilter Img Msk Geo) (hs : s = Run calls new)
    (in0 in1 in2 : Img)
    (h0 : s.input0 = some in0) (h1 : s.input1 = some in1) (h2 : s.input2 = some in2)
    (fuel : Nat) :
    View env (fuel + 7) (GenerateOutputInformation s)
      = View env (fuel + 7) (GenerateOutputInformation (SetParameters (GetParameters s) new)) ∧
    View env (fuel + 7) (GenerateOutputInformation (GenerateOutputInformation s))
      = View env (fuel + 7) (GenerateOutputInformation s) ∧
    ∃ v, View env (fuel + 7) (GenerateOutputInformation s) = some v := by
  have hp : Permanent s := hs ▸ Run_new_Permanent calls
  have e1 := View_GenerateOutputInformation env s hp in0 in1 in2 h0 h1 h2 fuel
  have e2 := View_GenerateOutputInformation env
    (SetParameters (GetParameters s) new) ⟨rfl, rfl, rfl⟩ in0 in1 in2 h0 h1 h2 fuel
  have e3 := View_GenerateOutputInformation env (GenerateOutputInformation s)
    (apply_Permanent Call.generateOutputInformation s hp) in0 in1 in2 h0 h1 h2 fuel
  refine ⟨?_, ?_, _, e1⟩
  · rw [e1, e2]
    rfl
  · rw [e1, e3]
    rfl

/-- C6 on the example filter after a first run with a support mask, the mask
then removed. -/
theorem C6_metadata_idempotent_witness :
    View Example.env 7
        (GenerateOutputInformation (Run (Example.maskedCalls ++
          [Call.generateOutputInformation, Call.setSupportMask none])
          (new : ConjugateGradientConeBeamReconstructionFilter Nat Nat Nat)))
      = View Example.env 7 (GenerateOutputInformation (Run Example.calls new)) := by
  have h := (C6_metadata_idempotent Example.env (Example.maskedCalls ++
          [Call.generateOutputInformation, Call.setSupportMask none]) _ rfl 0 1 2
          (by rfl) (by rfl) (by rfl) 0).1
  have h2 := (C6_metadata_idempotent Example.env Example.calls _ rfl 0 1 2 rfl rfl rfl 0).1
  exact h.trans h2.symm

/-- C7. Cost tracking and time measurement are side channels: two runs, on any
two filter objects, whose inputs and parameters differ only in the
iteration-cost and measure-times flags hand the solver the same `A`, `B`, `X`,
iteration count and early-stop target, and, the solver keeping its contract
that cost tracking does not alter the iterate, expose the same output
volume. -/
theorem C7_side_channels (env : Backend Img Msk Geo) (henv : env.CostsAreSideChannel)
    (callsA callsB : List (Call Img Msk Geo)) (p : Parameters Img Msk Geo)
    (in0 in1 in2 : Img)
    (h0 : p.input0 = some in0) (h1 : p.input1 = some in1) (h2 : p.input2 = some in2)
    (costsA timesA costsB timesB : Bool) (fuelA fuelB : Nat) (elapsedA elapsedB : ℚ)
    (sA sB : ConjugateGradientConeBeamReconstructionFilter Img Msk Geo)
    (hA : sA = GenerateOutputInformation
      (SetParameters { p with iterationCosts := costsA, measureExecutionTimes := timesA }
        (Run callsA new)))
    (hB : sB = GenerateOutputInformation
      (SetParameters { p with iterationCosts := costsB, measureExecutionTimes := timesB }
        (Run callsB new))) :
    ∃ cgA cgB rhs tA tB out,
      sA.m_ConjugateGradientFilter = some cgA ∧ sB.m_ConjugateGradientFilter = some cgB ∧
      cgA.m_A = cgB.m_A ∧ sA.m_CGOperator = sB.m_CGOperator ∧
      cgA.m_B = cgB.m_B ∧
      cgA.m_B.bind (UpdateData env sA (fuelA + 7)) = some rhs ∧
      cgB.m_B.bind (UpdateData env sB (fuelB + 7)) = some rhs ∧
      cgA.m_X = cgB.m_X ∧
      cgA.m_NumberOfIterations = cgB.m_NumberOfIterations ∧
      cgA.m_TargetSumOfSquaresBetweenConsecutiveIterates
        = cgB.m_TargetSumOfSquaresBetweenConsecutiveIterates ∧
      GenerateData env (fuelA + 7) elapsedA sA = some tA ∧
      GenerateData env (fuelB + 7) elapsedB sB = some tB ∧
      tA.output = some out ∧ tB.output = some out := by
  obtain ⟨cgA, tA, a1, a2, a3, a4, a5, a6, a7, a8, a9, a10⟩ :=
    metadata_and_execution env callsA
      { p with iterationCosts := costsA, measureExecutionTimes := timesA }
      in0 in1 in2 h0 h1 h2 fuelA elapsedA
  obtain ⟨cgB, tB, b1, b2, b3, b4, b5, b6, b7, b8, b9, b10⟩ :=
    metadata_and_execution env callsB
      { p with iterationCosts := costsB, measureExecutionTimes := timesB }
      in0 in1 in2 h0 h1 h2 fuelB elapsedB
  rw [ExpectedOutput_flags env henv] at a10 b10
  subst hA hB
  exact ⟨cgA, cgB, _, tA, tB, _, a1, b1, a2.trans b2.symm, a3.trans b3.symm,
    a4.trans b4.symm, a5, b5, a6.trans b6.symm, a7.trans b7.symm, a8.trans b8.symm,
    a9, b9, a10, b10⟩

/-- C7 on the example parameters and the solver of the spec: all flags on
against all flags off, on two filter objects with different histories. -/
theorem C7_side_channels_witness :
    ∃ tA tB out,
      GenerateData Example.env 7 5
        (GenerateOutputInformation
          (SetParameters { Example.parameters with
              iterationCosts := true, measureExecutionTimes := true }
            (Run Example.maskedCalls
              (new : ConjugateGradientConeBeamReconstructionFilter Nat Nat Nat)))) = some tA ∧
      GenerateData Example.env 9 0
        (GenerateOutputInformation
          (SetParameters { Example.parameters with
              iterationCosts := false, measureExecutionTimes := false }
            (Run [] new))) = some tB ∧
      tA.output = some out ∧ tB.output = some out := by
  obtain ⟨_, _, _, tA, tB, out, h⟩ :=
    C7_side_channels Example.env Example.env_CostsAreSideChannel Example.maskedCalls []
      Example.parameters 0 1 2 rfl rfl rfl true true false false 0 2 5 0 _ _ rfl rfl
  exact ⟨tA, tB, out, h.2.2.2.2.2.2.2.2.2.2⟩

/-- C8. A newly constructed filter has gamma 0 and tikhonov 0; the metadata
phase hands the operator the gamma and tikhonov configured on the filter; so
after any calls that set neither of the two, the operator `A` is given gamma 0
and tikhonov 0, that is, no regularization term. -/
theorem C8_regularization_defaults :
    (new : ConjugateGradientConeBeamReconstructionFilter Img Msk Geo).m_Gamma = 0 ∧
    (new : ConjugateGradientConeBeamReconstructionFilter Img Msk Geo).m_Tikhonov = 0 ∧
    (∀ s : ConjugateGradientConeBeamReconstructionFilter Img Msk Geo,
      (GenerateOutputInformation s).m_CGOperator.m_Gamma = s.m_Gamma ∧
      (GenerateOutputInformation s).m_CGOperator.m_Tikhonov = s.m_Tikhonov) ∧
    (∀ calls : List (Call Img Msk Geo), (∀ c ∈ calls, c.setsRegularization = false) →
      (GenerateOutputInformation (Run calls new)).m_CGOperator.m_Gamma = 0 ∧
      (GenerateOutputInformation (Run calls new)).m_CGOperator.m_Tikhonov = 0) := by
  refine ⟨rfl, rfl, fun s => ⟨rfl, rfl⟩, ?_⟩
  intro calls h
  obtain ⟨hg, ht⟩ := Run_regularization calls new h
  exact ⟨hg, ht⟩

/-- C8 on the example calls, which set inputs, geometry and mask only. -/
theorem C8_regularization_defaults_witness :
    (GenerateOutputInformation (Run Example.maskedCalls
      (new : ConjugateGradientConeBeamReconstructionFilter Nat Nat Nat))).m_CGOperator.m_Gamma = 0 ∧
    (GenerateOutputInformation (Run Example.maskedCalls
      (new : ConjugateGradientConeBeamReconstructionFilter Nat Nat Nat))).m_CGOperator.m_Tikhonov
      = 0 :=
  C8_regularization_defaults.2.2.2 Example.maskedCalls (by decide)

/-- C9. With a support mask whose values are all 0 or 1, masking any volume
twice equals masking it once; the output of the execution phase is the final
iterate of the solver times the mask, so applying the mask to it again leaves
it as it is. -/
theorem C9_mask_idempotent (env : Backend Img Msk Geo) (calls : List (Call Img Msk Geo))
    (s : ConjugateGradientConeBeamReconstructionFilter Img Msk Geo) (hs : s = Run calls new)
    (in0 in1 in2 : Img) (m : Msk)
    (h0 : s.input0 = some in0) (h1 : s.input1 = some in1) (h2 : s.input2 = some in2)
    (hm : s.supportMask = some m) (h01 : ∀ v ∈ env.mask m, v = 0 ∨ v = 1)
    (fuel : Nat) (elapsed : ℚ) :
    (∀ x : VectorImage,
      MultiplyImage (MultiplyImage x (env.mask m)) (env.mask m)
        = MultiplyImage x (env.mask m)) ∧
    ∃ t cg x out,
      GenerateData env (fuel + 7) elapsed (GenerateOutputInformation s) = some t ∧
      t.m_ConjugateGradientFilter = some cg ∧
      UpdateData env t (fuel + 6) (DataRef.conjugateGradient cg.serial) = some x ∧
      t.output = some out ∧
      out = MultiplyImage x (env.mask m) ∧
      MultiplyImage out (env.mask m) = out := by
  refine ⟨fun x => MultiplyImage_idempotent x _ h01, ?_⟩
  obtain ⟨t, cg, ht, hcg, hx, hsome, _⟩ :=
    GenerateData_after_metadata env s (hs ▸ Run_new_Permanent calls)
      in0 in1 in2 h0 h1 h2 fuel elapsed
  exact ⟨t, cg, _, _, ht, hcg, hx, hsome m hm, rfl, MultiplyImage_idempotent _ _ h01⟩

/-- C9 on the example filter, whose mask is `[1, 0]`. -/
theorem C9_mask_idempotent_witness :
    (∀ v ∈ Example.env.mask 3, v = 0 ∨ v = 1) ∧
    ∃ t out,
      GenerateData Example.env 7 0
        (GenerateOutputInformation (Run Example.maskedCalls
          (new : ConjugateGradientConeBeamReconstructionFilter Nat Nat Nat))) = some t ∧
      t.output = some out ∧
      MultiplyImage out (Example.env.mask 3) = out := by
  have h01 : ∀ v ∈ Example.env.mask 3, v = 0 ∨ v = 1 := by
    intro v hv
    simp [Example.env] at hv
    rcases hv with rfl | rfl <;> simp
  obtain ⟨_, t, cg, x, out, ht, _, _, ho, _, hi⟩ :=
    C9_mask_idempotent Example.env Example.maskedCalls _ rfl 0 1 2 3 rfl rfl rfl rfl h01 0 0
  exact ⟨h01, t, out, ht, ho, hi⟩

theorem GenerateOutputInformation_mask_wiring
    (env : Backend Img Msk Geo)
    (s : ConjugateGradientConeBeamReconstructionFilter Img Msk Geo) (hs : Permanent s)
    (in0 in1 in2 : Img)
    (h0 : s.input0 = some in0) (h1 : s.input1 = some in1) (h2 : s.input2 = some in2)
    (fuel : Nat) :
    ∃ cg,
      (GenerateOutputInformation s).m_ConjugateGradientFilter = some cg ∧
      UpdateData env (GenerateOutputInformation s) (fuel + 4) DataRef.backProjectionForB
        = some (env.backProjection s.m_Geometry (env.constantImageSource 0 (some in0))
            (ExpectedWeightedProjections env (GetParameters s) in1 in2)) ∧
      (GenerateOutputInformation s).m_CGOperator.m_SupportMask = s.supportMask ∧
      (∀ m, s.supportMask = some m →
        cg.m_B = some DataRef.multiplyVolume ∧
        (GenerateOutputInformation s).m_MultiplyVolumeFilter.input1
          = some DataRef.backProjectionForB ∧
        (GenerateOutputInformation s).m_MultiplyVolumeFilter.input2 = some m ∧
        (GenerateOutputInformation s).m_MultiplyOutputFilter.input1
          = some (DataRef.conjugateGradient cg.serial) ∧
        (GenerateOutputInformation s).m_MultiplyOutputFilter.input2 = some m ∧
        cg.m_B.bind (UpdateData env (GenerateOutputInformation s) (fuel + 5))
          = some (MultiplyImage
              (env.backProjection s.m_Geometry (env.constantImageSource 0 (some in0))
                (ExpectedWeightedProjections env (GetParameters s) in1 in2))
              (env.mask m))) ∧
      (s.supportMask = none →
        cg.m_B = some DataRef.backProjectionForB ∧
        cg.m_B.bind (UpdateData env (GenerateOutputInformation s) (fuel + 5))
          = some (env.backProjection s.m_Geometry (env.constantImageSource 0 (some in0))
                (ExpectedWeightedProjections env (GetParameters s) in1 in2))) := by
  obtain ⟨hc, hp, _⟩ := hs
  cases hm : s.supportMask <;>
  simp [UpdateData, GenerateOutputInformation, h0, h1, h2, hm, hc, hp,
    ExpectedWeightedProjections, GetParameters, ConjugateGradientFilter.new]

/-- C12. When a support mask is set, the operator `A` is given that mask, the
same mask is multiplied into the back projection that forms `B` and into the
final iterate that forms the output; when none is set, `A` is given no mask,
`B` is the back projection itself and the output is the final iterate itself. -/
theorem C12_one_mask_everywhere (env : Backend Img Msk Geo) (calls : List (Call Img Msk Geo))
    (s : ConjugateGradientConeBeamReconstructionFilter Img Msk Geo) (hs : s = Run calls new)
    (in0 in1 in2 : Img)
    (h0 : s.input0 = some in0) (h1 : s.input1 = some in1) (h2 : s.input2 = some in2)
    (fuel : Nat) (elapsed : ℚ) :
    ∃ cg bp t cgt x,
      (GenerateOutputInformation s).m_ConjugateGradientFilter = some cg ∧
      UpdateData env (GenerateOutputInformation s) (fuel + 4) DataRef.backProjectionForB
        = some bp ∧
      GenerateData env (fuel + 7) elapsed (GenerateOutputInformation s) = some t ∧
      t.m_ConjugateGradientFilter = some cgt ∧
      UpdateData env t (fuel + 6) (DataRef.conjugateGradient cgt.serial) = some x ∧
      (∀ m, s.supportMask = some m →
        (GenerateOutputInformation s).m_CGOperator.m_SupportMask = some m ∧
        (GenerateOutputInformation s).m_MultiplyVolumeFilter.input2 = some m ∧
        (GenerateOutputInformation s).m_MultiplyOutputFilter.input2 = some m ∧
        cg.m_B.bind (UpdateData env (GenerateOutputInformation s) (fuel + 5))
          = some (MultiplyImage bp (env.mask m)) ∧
        t.output = some (MultiplyImage x (env.mask m))) ∧
      (s.supportMask = none →
        (GenerateOutputInformation s).m_CGOperator.m_SupportMask = none ∧
        cg.m_B.bind (UpdateData env (GenerateOutputInformation s) (fuel + 5)) = some bp ∧
        t.output = some x) := by
  have hp : Permanent s := hs ▸ Run_new_Permanent calls
  obtain ⟨cg, hcg, hbp, hop, hsome, hnone⟩ :=
    GenerateOutputInformation_mask_wiring env s hp in0 in1 in2 h0 h1 h2 fuel
  obtain ⟨t, cgt, ht, hcgt, hx, osome, onone⟩ :=
    GenerateData_after_metadata env s hp in0 in1 in2 h0 h1 h2 fuel elapsed
  refine ⟨cg, _, t, cgt, _, hcg, hbp, ht, hcgt, hx, ?_, ?_⟩
  · intro m hm
    obtain ⟨_, _, w2, _, w4, w5⟩ := hsome m hm
    exact ⟨hop.trans hm, w2, w4, w5, osome m hm⟩
  · intro hm
    exact ⟨hop.trans hm, (hnone hm).2, onone hm⟩

/-- C12 on the example filter with the support mask 3. -/
theorem C12_one_mask_everywhere_witness :
    (GenerateOutputInformation (Run Example.maskedCalls
      (new : ConjugateGradientConeBeamReconstructionFilter Nat Nat Nat))).m_CGOperator.m_SupportMask
      = some 3 ∧
    ∃ t x, GenerateData Example.env 7 0
        (GenerateOutputInformation (Run Example.maskedCalls new)) = some t ∧
      t.output = some (MultiplyImage x (Example.env.mask 3)) := by
  obtain ⟨_, _, t, _, x, _, _, ht, _, _, hsome, _⟩ :=
    C12_one_mask_everywhere Example.env Example.maskedCalls _ rfl 0 1 2 rfl rfl rfl 0 0
  exact ⟨(hsome 3 rfl).1, t, x, ht, (hsome 3 rfl).2.2.2.2⟩

end ConjugateGradientConeBeamReconstructionFilter

namespace ConjugateGradientConeBeamReconstructionFilter
variable {Img Msk Geo : Type}

end ConjugateGradientConeBeamReconstructionFilter

/-! ### The dot product functor -/

namespace Functor

theorem foldl_add_range (f : Nat → ℚ) (n : Nat) :
    (List.range n).foldl (fun out component => out + f component) 0
      = ∑ component ∈ Finset.range n, f component := by
  induction n with
  | zero => simp
  | succ n ih =>
    rw [List.range_succ, List.foldl_append, ih, Finset.sum_range_succ]
    rfl

/-- C14. For vector pixels `A` and `B` of the same length `n` the functor
returns the sum over `c < n` of `A[c] * B[c]`, which is 0 when `n = 0`; for
scalar pixels it returns `A * B`, which is what the vector overload returns on
the two one-component pixels. -/
theorem C14_DotProduct (A B : Pixel) (h : A.length = B.length) :
    DotProduct A B = ∑ c : Fin A.length, A.get c * B.get (Fin.cast h c) ∧
    (A.length = 0 → DotProduct A B = 0) ∧
    (∀ a b : ℚ, DotProductScalar a b = a * b ∧ DotProductScalar a b = DotProduct [a] [b]) := by
  have hsum : DotProduct A B = ∑ c : Fin A.length, A.get c * B.get (Fin.cast h c) := by
    unfold DotProduct
    rw [foldl_add_range (fun c => A.getD c 0 * B.getD c 0), Finset.sum_range]
    apply Finset.sum_congr rfl
    intro c _
    have hc : (c : Nat) < B.length := h ▸ c.isLt
    rw [List.getD_eq_getElem A 0 c.isLt, List.getD_eq_getElem B 0 hc]
    rfl
  refine ⟨hsum, ?_, ?_⟩
  · intro h0
    have : A = [] := List.length_eq_zero.mp h0
    subst this
    rfl
  · intro a b
    constructor
    · rfl
    · simp [DotProductScalar, DotProduct, List.range_succ]

/-- C14 on the pixels (1, 2, 3) and (4, 5, 6): the dot product is 32. -/
theorem C14_DotProduct_witness : DotProduct [1, 2, 3] [4, 5, 6] = 32 := by
  rw [(C14_DotProduct [1, 2, 3] [4, 5, 6] rfl).1]
  simp [Fin.sum_univ_succ]
  norm_num

end Functor

/-! ### The warp filter -/

namespace WarpFourDToProjectionStackImageFilter

theorem toInt_of_lt (v : Nat) (h : v < 2 ^ 31) : toInt v = (v : Int) := by
  have h1 : v % 2 ^ 32 = v := Nat.mod_eq_of_lt (by omega)
  unfold toInt
  rw [h1, if_pos h]

theorem processProjection_updates (FirstProj NumberProjs : Int) (st : State × Bool) (p : Nat) :
    (processProjection FirstProj NumberProjs st p).1.updates
      = if inRequestedRegion FirstProj NumberProjs (toInt p) then st.1.updates ++ [toInt p]
        else st.1.updates := by
  unfold processProjection
  by_cases h : inRequestedRegion FirstProj NumberProjs (toInt p) = true
  · simp only [h, if_true]
    cases st.2 <;> rfl
  · simp only [h, if_false]
    simp

theorem foldl_processProjection_updates (FirstProj NumberProjs : Int) (ps : List Nat) :
    ∀ st : State × Bool,
      (ps.foldl (processProjection FirstProj NumberProjs) st).1.updates
        = st.1.updates
          ++ (ps.filter (fun p => inRequestedRegion FirstProj NumberProjs (toInt p))).map toInt := by
  induction ps with
  | nil => intro st; simp
  | cons p ps ih =>
    intro st
    rw [List.foldl_cons, ih, processProjection_updates]
    by_cases h : inRequestedRegion FirstProj NumberProjs (toInt p) = true
    · simp [h, List.filter_cons]
    · simp [h, List.filter_cons]

theorem map_getD_range (l : List Nat) : (List.range l.length).map (fun i => l.getD i 0) = l := by
  apply List.ext_getElem
  · simp
  · intro i h1 h2
    simp [List.getElem?_eq_getElem h2]

theorem GenerateData_updates (NumberProjs FirstProj : Int) (permutation : List Nat) (s : State)
    (hlen : permutation.length = s.m_Signal.length) :
    (GenerateData NumberProjs FirstProj permutation s).updates
      = s.updates
        ++ (permutation.filter
            (fun p => inRequestedRegion FirstProj NumberProjs (toInt p))).map toInt := by
  have h := foldl_processProjection_updates FirstProj NumberProjs
    ((List.range s.m_Signal.length).map (fun i => permutation.getD i 0)) (s, false)
  rw [List.foldl_map] at h
  rw [← hlen, map_getD_range] at h
  show ((List.range s.m_Signal.length).foldl _ (s, false)).1.updates = _
  rw [← hlen]
  exact h

/-- C15. When `GetSortingPermutation` returns a permutation of `0 .. n-1` that
orders the `n` signal values non-decreasingly, `GenerateData` updates the paste
filter for exactly the projections `p` with `FirstProj <= p`,
`p < FirstProj + NumberProjs` and `p < n`, each once, in non-decreasing order
of signal value; so projections of equal signal value are processed one after
the other. -/
theorem C15_projections_in_phase_order (NumberProjs FirstProj : Int) (permutation : List Nat)
    (s : State) (hperm : IsSortingPermutation s.m_Signal permutation)
    (hn : s.m_Signal.length ≤ 2 ^ 31) :
    ∃ sel : List Nat,
      sel = permutation.filter (fun (p : Nat) => inRequestedRegion FirstProj NumberProjs (p : Int)) ∧
      processed NumberProjs FirstProj permutation s = sel.map (fun (p : Nat) => (p : Int)) ∧
      (∀ p : Nat, p ∈ sel ↔
        (FirstProj ≤ (p : Int) ∧ (p : Int) < FirstProj + NumberProjs ∧ p < s.m_Signal.length)) ∧
      sel.Nodup ∧
      sel.Pairwise (fun a b => phase s.m_Signal a ≤ phase s.m_Signal b) ∧
      (∀ (i j k : Nat) (_ : i < j) (_ : j < k) (_ : k < sel.length),
        phase s.m_Signal (sel.getD i 0) = phase s.m_Signal (sel.getD k 0) →
        phase s.m_Signal (sel.getD j 0) = phase s.m_Signal (sel.getD i 0)) := by
  obtain ⟨hp, hsorted⟩ := hperm
  have hlen : permutation.length = s.m_Signal.length := by
    rw [hp.length_eq, List.length_range]
  have hmem : ∀ p, p ∈ permutation ↔ p < s.m_Signal.length := by
    intro p
    rw [hp.mem_iff, List.mem_range]
  have hfilter : permutation.filter
        (fun p => inRequestedRegion FirstProj NumberProjs (toInt p))
      = permutation.filter (fun (p : Nat) => inRequestedRegion FirstProj NumberProjs (p : Int)) := by
    apply List.filter_congr
    intro p hpm
    rw [toInt_of_lt p (by have := (hmem p).mp hpm; omega)]
  have hmap : ∀ l : List Nat, (∀ p ∈ l, p ∈ permutation) →
      l.map toInt = l.map (fun (p : Nat) => (p : Int)) := by
    intro l hl
    apply List.map_congr_left
    intro p hpl
    exact toInt_of_lt p (by have := (hmem p).mp (hl p hpl); omega)
  have hpair : (permutation.filter
      (fun (p : Nat) => inRequestedRegion FirstProj NumberProjs (p : Int))).Pairwise
      (fun a b => phase s.m_Signal a ≤ phase s.m_Signal b) := hsorted.filter _
  refine ⟨_, rfl, ?_, ?_, ?_, hpair, ?_⟩
  · unfold processed
    rw [GenerateData_updates NumberProjs FirstProj permutation s hlen, List.drop_left, hfilter]
    exact hmap _ (fun p h => (List.mem_filter.mp h).1)
  · intro p
    rw [List.mem_filter, hmem]
    simp only [inRequestedRegion, Bool.and_eq_true, decide_eq_true_eq, ge_iff_le]
    tauto
  · exact ((hp.nodup_iff).mpr (List.nodup_range _)).filter _
  · intro i j k hij hjk hk heq
    have hj : j < (permutation.filter
        (fun (p : Nat) => inRequestedRegion FirstProj NumberProjs (p : Int))).length := by omega
    have hi : i < (permutation.filter
        (fun (p : Nat) => inRequestedRegion FirstProj NumberProjs (p : Int))).length := by omega
    have hall := List.pairwise_iff_getElem.mp hpair
    have h1 := hall i j hi hj hij
    have h2 := hall j k hj hk hjk
    rw [List.getD_eq_getElem _ 0 hi, List.getD_eq_getElem _ 0 hk] at heq
    rw [List.getD_eq_getElem _ 0 hi, List.getD_eq_getElem _ 0 hj]
    exact le_antisymm (heq ▸ h2) h1

/-- C15 on four projections with signal 1/2, 1/10, 1/2, 3/10, sorted by the
permutation 1, 3, 0, 2, and the requested region 1 .. 3: projections 1, 3, 2
are processed, in that order. -/
theorem C15_projections_in_phase_order_witness :
    processed 3 1 [1, 3, 0, 2] Example.warpState = [1, 3, 2] := by
  have hperm : IsSortingPermutation Example.warpState.m_Signal [1, 3, 0, 2] := by
    constructor
    · decide
    · simp [phase, Example.warpState]
      norm_num
  obtain ⟨sel, hsel, hproc, _⟩ :=
    C15_projections_in_phase_order 3 1 [1, 3, 0, 2] Example.warpState hperm (by decide)
  rw [hproc, hsel]
  decide

end WarpFourDToProjectionStackImageFilter

/-! ### The XRad image reader -/

namespace XRadImageIO

theorem takeWhile_ne_eq_take_indexOf (c : Char) (l : List Char) :
    l.takeWhile (fun x => x ≠ c) = l.take (l.indexOf c) := by
  induction l with
  | nil => rfl
  | cons a l ih =>
    by_cases h : a = c
    · subst h
      simp [List.takeWhile_cons]
    · rw [List.indexOf_cons_ne _ h, List.take_succ_cons, List.takeWhile_cons, ← ih]
      simp [h]

theorem afterLastDot_eq_drop (name : List Char) :
    afterLastDot name = name.drop (name.length - name.reverse.indexOf '.') := by
  unfold afterLastDot
  rw [takeWhile_ne_eq_take_indexOf]
  rw [List.reverse_take, List.reverse_reverse, List.length_reverse]

theorem substr_extension (name : List Char) (hlen : name.length < 2 ^ 64) :
    substr name ((find_last_of name '.' + 1) % 2 ^ 64) name.length
      = Except.ok (afterLastDot name) := by
  rw [afterLastDot_eq_drop]
  unfold find_last_of substr
  by_cases h : '.' ∈ name
  · have hlt : name.reverse.indexOf '.' < name.length := by
      have := (@List.indexOf_lt_length _ _ '.' name.reverse).mpr (List.mem_reverse.mpr h)
      simpa using this
    have hpos : (name.length - 1 - name.reverse.indexOf '.' + 1) % 2 ^ 64
        = name.length - name.reverse.indexOf '.' := by
      rw [Nat.mod_eq_of_lt (by omega)]
      omega
    rw [if_pos h, hpos, if_neg (by omega)]
    congr 1
    apply List.take_of_length_le
    rw [List.length_drop]
    omega
  · have hidx : name.reverse.indexOf '.' = name.length := by
      have := @List.indexOf_of_not_mem _ _ name.reverse '.' (by simpa using h)
      simpa using this
    rw [if_neg h, hidx]
    have hz : (npos + 1) % 2 ^ 64 = 0 := by decide
    rw [hz, if_neg (by omega)]
    simp

/-- C17. `CanReadFile` returns true exactly when the characters after the last
`.` of the name, the whole name when it has none, are `header`; it accepts
`scan.header` and rejects `scan.img` and `scan.header.bak`. -/
theorem C17_CanReadFile_extension (name : List Char) (hlen : name.length < 2 ^ 64) :
    CanReadFile name = Except.ok (decide (afterLastDot name = "header".toList)) ∧
    (CanReadFile name = Except.ok true ↔ afterLastDot name = "header".toList) ∧
    CanReadFile "scan.header".toList = Except.ok true ∧
    CanReadFile "scan.img".toList = Except.ok false ∧
    CanReadFile "scan.header.bak".toList = Except.ok false := by
  have h : CanReadFile name = Except.ok (decide (afterLastDot name = "header".toList)) := by
    unfold CanReadFile
    simp only []
    rw [substr_extension name hlen]
    by_cases hx : afterLastDot name = "header".toList
    · simp [Except.map, hx]
    · simp [Except.map, hx]
  refine ⟨h, ?_, by rfl, by rfl, by rfl⟩
  rw [h]
  constructor
  · intro he
    injection he with he
    exact of_decide_eq_true he
  · intro hx
    rw [decide_eq_true hx]

/-- C17 on the name `header`, which has no `.`: it is accepted. -/
theorem C17_CanReadFile_extension_witness :
    CanReadFile "header".toList = Except.ok true ∧
    afterLastDot "header".toList = "header".toList := by
  have h := (C17_CanReadFile_extension "header".toList (by decide)).1
  exact ⟨h.trans (by rfl), by decide⟩

end XRadImageIO

namespace XRadImageIO

theorem converted_map_ok {α β : Type} (value : Option α) (f : α → β) (t : β)
    (h : (converted value).map f = Except.ok t) : ∃ v, value = some v ∧ f v = t := by
  cases value with
  | none => cases h
  | some v =>
    injection h with h
    exact ⟨v, rfl, h⟩

theorem SetSpacing_axis (i : Nat) (v : ℚ) (s : State) (axis : Nat) :
    (SetSpacing i (if 10 * v = 0 then 1 else 10 * v) s).m_Spacing axis ≠ 0 ∨
    (SetSpacing i (if 10 * v = 0 then 1 else 10 * v) s).m_Spacing axis = s.m_Spacing axis := by
  by_cases hi : axis = i
  · left
    subst hi
    simp only [SetSpacing, Function.update_same]
    split
    · exact one_ne_zero
    · assumption
  · right
    simp [SetSpacing, Function.update_noteq hi]

theorem SetParameter_spacing (stoi : List Char → Option Int) (stod : List Char → Option ℚ)
    (sectionName paramName paramValue : List Char) (s t : State)
    (h : SetParameter stoi stod sectionName paramName paramValue s = Except.ok t) (axis : Nat) :
    t.m_Spacing axis ≠ 0 ∨ t.m_Spacing axis = s.m_Spacing axis := by
  unfold SetParameter at h
  split at h
  · obtain ⟨v, _, rfl⟩ := converted_map_ok _ _ _ h
    right; rfl
  split at h
  · obtain ⟨v, _, rfl⟩ := converted_map_ok _ _ _ h
    right; rfl
  split at h
  · obtain ⟨v, _, rfl⟩ := converted_map_ok _ _ _ h
    right; rfl
  split at h
  · obtain ⟨v, _, rfl⟩ := converted_map_ok _ _ _ h
    right
    simp only []
    split <;> split <;> rfl
  split at h
  · obtain ⟨v, _, rfl⟩ := converted_map_ok _ _ _ h
    exact SetSpacing_axis 0 v s axis
  split at h
  · obtain ⟨v, _, rfl⟩ := converted_map_ok _ _ _ h
    exact SetSpacing_axis 1 v s axis
  split at h
  · obtain ⟨v, _, rfl⟩ := converted_map_ok _ _ _ h
    exact SetSpacing_axis 2 v s axis
  · injection h with h
    subst h; right; rfl

theorem bind_ok {ε α β : Type} (x : Except ε α) (f : α → Except ε β) (b : β)
    (h : x.bind f = Except.ok b) : ∃ a, x = Except.ok a ∧ f a = Except.ok b := by
  cases x with
  | error e => cases h
  | ok a => exact ⟨a, rfl, h⟩

theorem map_ok {ε α β : Type} (x : Except ε α) (f : α → β) (b : β)
    (h : x.map f = Except.ok b) : ∃ a, x = Except.ok a ∧ f a = b := by
  cases x with
  | error e => cases h
  | ok a =>
    injection h with h
    exact ⟨a, rfl, h⟩

theorem readLine_spacing (stoi : List Char → Option Int) (stod : List Char → Option ℚ)
    (st st2 : State × List Char) (line : List Char)
    (h : readLine stoi stod st line = Except.ok st2) (axis : Nat) :
    st2.1.m_Spacing axis ≠ 0 ∨ st2.1.m_Spacing axis = st.1.m_Spacing axis := by
  unfold readLine at h
  obtain ⟨sectionName, _, h⟩ := bind_ok _ _ _ h
  split at h
  · obtain ⟨paramName, _, h⟩ := bind_ok _ _ _ h
    obtain ⟨paramValue, _, h⟩ := bind_ok _ _ _ h
    obtain ⟨s, hs, rfl⟩ := map_ok _ _ _ h
    exact SetParameter_spacing stoi stod _ _ _ _ _ hs axis
  · injection h with h
    subst h
    right; rfl

theorem readLines_spacing (stoi : List Char → Option Int) (stod : List Char → Option ℚ)
    (lines : List (List Char)) :
    ∀ (st st2 : State × List Char), readLines stoi stod lines st = Except.ok st2 →
      ∀ axis, st2.1.m_Spacing axis ≠ 0 ∨ st2.1.m_Spacing axis = st.1.m_Spacing axis := by
  induction lines with
  | nil =>
    intro st st2 h axis
    injection h with h
    subst h
    right; rfl
  | cons line rest ih =>
    intro st st2 h axis
    obtain ⟨mid, hmid, hrest⟩ := bind_ok _ _ _ h
    rcases ih mid st2 hrest axis with h1 | h1
    · left; exact h1
    · rcases readLine_spacing stoi stod st mid line hmid axis with h2 | h2
      · left; rw [h1]; exact h2
      · right; rw [h1, h2]

theorem find_eq_of_not_mem (name value : List Char) (c : Char) (h : c ∉ name) :
    find (name ++ c :: value) c = name.length := by
  unfold find
  rw [if_pos (by simp), List.indexOf_append_of_not_mem h, List.indexOf_cons_self]
  rfl

theorem readSection_ok (sectionName line : List Char) (hlen : line.length < 2 ^ 32) :
    ∃ newSection, readSection sectionName line = Except.ok newSection := by
  unfold readSection
  split
  · rename_i hfound
    have hmem : '[' ∈ line := by
      by_contra hn
      exact hfound (by simp [find, hn])
    have hidx : line.indexOf '[' < line.length := List.indexOf_lt_length.mpr hmem
    have hpos : (toUnsignedInt (find line '[') + 1) % 2 ^ 32 = line.indexOf '[' + 1 := by
      simp only [find, if_pos hmem, toUnsignedInt]
      rw [Nat.mod_eq_of_lt (by omega), Nat.mod_eq_of_lt (by omega)]
    simp only [hpos, substr]
    rw [if_neg (by omega)]
    exact ⟨_, rfl⟩
  · exact ⟨_, rfl⟩

theorem SetParameter_pixelDimension (stoi : List Char → Option Int)
    (stod : List Char → Option ℚ) (sectionName value : List Char) (s : State)
    (axis : Nat) (haxis : axis < 3) (v : ℚ) (hv : stod value = some v) :
    SetParameter stoi stod sectionName (pixelDimensionName axis) value s
      = Except.ok (SetSpacing axis (if 10 * v = 0 then 1 else 10 * v) s) := by
  unfold SetParameter
  match axis, haxis with
  | 0, _ =>
    rw [if_neg (by decide), if_neg (by decide), if_neg (by decide), if_neg (by decide),
      if_pos (by decide), hv]
    rfl
  | 1, _ =>
    rw [if_neg (by decide), if_neg (by decide), if_neg (by decide), if_neg (by decide),
      if_neg (by decide), if_pos (by decide), hv]
    rfl
  | 2, _ =>
    rw [if_neg (by decide), if_neg (by decide), if_neg (by decide), if_neg (by decide),
      if_neg (by decide), if_neg (by decide), if_pos (by decide), hv]
    rfl

theorem pixelDimensionName_facts (axis : Nat) :
    '=' ∉ pixelDimensionName axis ∧ (pixelDimensionName axis).length = 46 := by
  match axis with
  | 0 => exact ⟨by decide, by decide⟩
  | 1 => exact ⟨by decide, by decide⟩
  | n + 2 =>
    exact ⟨(by decide : '=' ∉ "CBCT.DimensionalAttributes.PixelDimension_K_cm".toList),
      (by decide : ("CBCT.DimensionalAttributes.PixelDimension_K_cm".toList).length = 46)⟩

theorem readLine_pixelDimension (stoi : List Char → Option Int) (stod : List Char → Option ℚ)
    (st : State × List Char) (axis : Nat) (haxis : axis < 3) (value : List Char) (v : ℚ)
    (hv : stod value = some v)
    (hlen : (pixelDimensionName axis ++ '=' :: value).length < 2 ^ 32) :
    ∃ sectionName,
      readLine stoi stod st (pixelDimensionName axis ++ '=' :: value)
        = Except.ok (SetSpacing axis (if 10 * v = 0 then 1 else 10 * v) st.1, sectionName) := by
  obtain ⟨hnot, hname⟩ := pixelDimensionName_facts axis
  obtain ⟨sectionName, hsec⟩ := readSection_ok st.2 _ hlen
  have hfind := find_eq_of_not_mem (pixelDimensionName axis) value '=' hnot
  have hl : (pixelDimensionName axis ++ '=' :: value).length = 46 + 1 + value.length := by
    simp [hname]
    omega
  rw [hl] at hlen
  refine ⟨sectionName, ?_⟩
  unfold readLine
  rw [hsec]
  simp only [Except.bind, hfind, hname]
  rw [if_pos (by decide)]
  have hpos : toUnsignedInt 46 = 46 := by decide
  have hname_sub : substr (pixelDimensionName axis ++ '=' :: value) 0 46
      = Except.ok (pixelDimensionName axis) := by
    unfold substr
    rw [if_neg (by omega)]
    simp only [List.drop_zero]
    rw [← hname, List.take_left]
  have hvalue_sub : substr (pixelDimensionName axis ++ '=' :: value) ((46 + 1) % 2 ^ 32)
      (((pixelDimensionName axis ++ '=' :: value).length + 2 ^ 64 - 46 - 1) % 2 ^ 64)
      = Except.ok value := by
    unfold substr
    have h47 : (46 + 1) % 2 ^ 32 = 46 + 1 := by decide
    rw [h47, hl, if_neg (by omega)]
    have hcount : (46 + 1 + value.length + 2 ^ 64 - 46 - 1) % 2 ^ 64 = value.length := by
      have : 46 + 1 + value.length + 2 ^ 64 - 46 - 1 = value.length + 2 ^ 64 := by omega
      rw [this, Nat.add_mod_right, Nat.mod_eq_of_lt (by omega)]
    rw [hcount]
    have hdrop : List.drop (46 + 1) (pixelDimensionName axis ++ '=' :: value) = value := by
      rw [← hname, List.drop_append]
      rfl
    rw [hdrop, List.take_length]
  simp only [hpos, hname_sub, hvalue_sub]
  rw [SetParameter_pixelDimension stoi stod sectionName value st.1 axis haxis v hv]
  rfl

theorem SetParameter_total (stoi : List Char → Option Int) (stod : List Char → Option ℚ)
    (hi : ∀ text, ∃ v, stoi text = some v) (hd : ∀ text, ∃ v, stod text = some v)
    (sectionName paramName paramValue : List Char) (s : State) :
    ∃ t, SetParameter stoi stod sectionName paramName paramValue s = Except.ok t := by
  obtain ⟨i, hi⟩ := hi paramValue
  obtain ⟨d, hd⟩ := hd paramValue
  unfold SetParameter
  rw [hi, hd]
  repeat' split
  all_goals exact ⟨_, rfl⟩

theorem readLine_total (stoi : List Char → Option Int) (stod : List Char → Option ℚ)
    (hi : ∀ text, ∃ v, stoi text = some v) (hd : ∀ text, ∃ v, stod text = some v)
    (st : State × List Char) (line : List Char) (hlen : line.length < 2 ^ 32) :
    ∃ st2, readLine stoi stod st line = Except.ok st2 := by
  obtain ⟨sectionName, hsec⟩ := readSection_ok st.2 line hlen
  unfold readLine
  rw [hsec]
  simp only [Except.bind]
  split
  · rename_i hfound
    have hmem : '=' ∈ line := by
      by_contra hn
      exact hfound (by simp [find, hn])
    have hidx : line.indexOf '=' < line.length := List.indexOf_lt_length.mpr hmem
    have hpos : toUnsignedInt (find line '=') = line.indexOf '=' := by
      simp only [find, if_pos hmem, toUnsignedInt]
      exact Nat.mod_eq_of_lt (by omega)
    have hpos1 : (line.indexOf '=' + 1) % 2 ^ 32 = line.indexOf '=' + 1 :=
      Nat.mod_eq_of_lt (by omega)
    simp only [hpos, hpos1, substr]
    rw [if_neg (by omega), if_neg (by omega)]
    obtain ⟨t, ht⟩ := SetParameter_total stoi stod hi hd sectionName
      (List.take (List.indexOf '=' line) (List.drop 0 line))
      (List.take ((line.length + 2 ^ 64 - List.indexOf '=' line - 1) % 2 ^ 64)
        (List.drop (List.indexOf '=' line + 1) line)) st.1
    simp only [ht]
    exact ⟨_, rfl⟩
  · exact ⟨_, rfl⟩

theorem readLines_total (stoi : List Char → Option Int) (stod : List Char → Option ℚ)
    (hi : ∀ text, ∃ v, stoi text = some v) (hd : ∀ text, ∃ v, stod text = some v)
    (lines : List (List Char)) (hlen : ∀ line ∈ lines, line.length < 2 ^ 32) :
    ∀ st : State × List Char, ∃ st2, readLines stoi stod lines st = Except.ok st2 := by
  induction lines with
  | nil => intro st; exact ⟨st, rfl⟩
  | cons line rest ih =>
    intro st
    obtain ⟨mid, hmid⟩ := readLine_total stoi stod hi hd st line
      (hlen line (List.mem_cons_self _ _))
    obtain ⟨st2, h2⟩ := ih (fun l hl => hlen l (List.mem_cons_of_mem _ hl)) mid
    refine ⟨st2, ?_⟩
    simp only [readLines, hmid, Except.bind]
    exact h2

theorem readLines_spacing_of_mem (stoi : List Char → Option Int) (stod : List Char → Option ℚ)
    (axis : Nat) (haxis : axis < 3) (value : List Char) (v : ℚ) (hv : stod value = some v)
    (hlen : (pixelDimensionName axis ++ '=' :: value).length < 2 ^ 32)
    (lines : List (List Char)) :
    ∀ (st st2 : State × List Char),
      (pixelDimensionName axis ++ '=' :: value) ∈ lines →
      readLines stoi stod lines st = Except.ok st2 → st2.1.m_Spacing axis ≠ 0 := by
  induction lines with
  | nil => intro st st2 hmem; cases hmem
  | cons line rest ih =>
    intro st st2 hmem h
    obtain ⟨mid, hmid, hrest⟩ := bind_ok _ _ _ h
    by_cases hin : (pixelDimensionName axis ++ '=' :: value) ∈ rest
    · exact ih mid st2 hin hrest
    · have hline : line = pixelDimensionName axis ++ '=' :: value := by
        rcases List.mem_cons.mp hmem with h1 | h1
        · exact h1.symm
        · exact absurd h1 hin
      subst hline
      obtain ⟨sectionName, hread⟩ :=
        readLine_pixelDimension stoi stod st axis haxis value v hv hlen
      rw [hread] at hmid
      injection hmid with hmid
      have hmidne : mid.1.m_Spacing axis ≠ 0 := by
        rw [← hmid]
        simp only [SetSpacing, Function.update_same]
        split
        · exact one_ne_zero
        · assumption
      rcases readLines_spacing stoi stod rest mid st2 hrest axis with h1 | h1
      · exact h1
      · rw [h1]; exact hmidne

theorem readLines_append (stoi : List Char → Option Int) (stod : List Char → Option ℚ)
    (before after : List (List Char)) :
    ∀ st : State × List Char,
      readLines stoi stod (before ++ after) st
        = (readLines stoi stod before st).bind (readLines stoi stod after) := by
  induction before with
  | nil => intro st; rfl
  | cons line rest ih =>
    intro st
    simp only [List.cons_append, readLines]
    cases readLine stoi stod st line with
    | error e => rfl
    | ok mid => exact ih mid

theorem SetParameter_spacing_other (stoi : List Char → Option Int) (stod : List Char → Option ℚ)
    (sectionName paramName paramValue : List Char) (s t : State)
    (axis : Nat) (hname : paramName ≠ pixelDimensionName axis)
    (h : SetParameter stoi stod sectionName paramName paramValue s = Except.ok t) :
    t.m_Spacing axis = s.m_Spacing axis := by
  unfold SetParameter at h
  split at h
  · obtain ⟨v, _, rfl⟩ := converted_map_ok _ _ _ h
    rfl
  split at h
  · obtain ⟨v, _, rfl⟩ := converted_map_ok _ _ _ h
    rfl
  split at h
  · obtain ⟨v, _, rfl⟩ := converted_map_ok _ _ _ h
    rfl
  split at h
  · obtain ⟨v, _, rfl⟩ := converted_map_ok _ _ _ h
    simp only []
    split <;> split <;> rfl
  split at h
  · rename_i hp
    obtain ⟨v, _, rfl⟩ := converted_map_ok _ _ _ h
    have hne : axis ≠ 0 := by
      rintro rfl
      exact hname hp
    simp [SetSpacing, Function.update_noteq hne]
  split at h
  · rename_i hp
    obtain ⟨v, _, rfl⟩ := converted_map_ok _ _ _ h
    have hne : axis ≠ 1 := by
      rintro rfl
      exact hname hp
    simp [SetSpacing, Function.update_noteq hne]
  split at h
  · rename_i hp
    obtain ⟨v, _, rfl⟩ := converted_map_ok _ _ _ h
    have hne : axis ≠ 2 := by
      rintro rfl
      exact hname hp
    simp [SetSpacing, Function.update_noteq hne]
  · injection h with h
    subst h
    rfl

theorem readLine_spacing_unchanged (stoi : List Char → Option Int) (stod : List Char → Option ℚ)
    (st st2 : State × List Char) (line : List Char) (axis : Nat)
    (hlen : line.length < 2 ^ 32) (hline : ¬ (pixelDimensionName axis ++ ['=']) <+: line)
    (h : readLine stoi stod st line = Except.ok st2) :
    st2.1.m_Spacing axis = st.1.m_Spacing axis := by
  unfold readLine at h
  obtain ⟨sectionName, _, h⟩ := bind_ok _ _ _ h
  split at h
  · rename_i hfound
    have hmem : '=' ∈ line := by
      by_contra hn
      exact hfound (by simp [find, hn])
    have hidx : line.indexOf '=' < line.length := List.indexOf_lt_length.mpr hmem
    have hpos : toUnsignedInt (find line '=') = line.indexOf '=' := by
      simp only [find, if_pos hmem, toUnsignedInt]
      exact Nat.mod_eq_of_lt (by omega)
    obtain ⟨paramName, hparam, h⟩ := bind_ok _ _ _ h
    obtain ⟨paramValue, _, h⟩ := bind_ok _ _ _ h
    obtain ⟨s, hs, rfl⟩ := map_ok _ _ _ h
    have hname : paramName = line.take (line.indexOf '=') := by
      simp only [hpos, substr] at hparam
      rw [if_neg (by omega)] at hparam
      injection hparam with hparam
      rw [← hparam, List.drop_zero]
    refine SetParameter_spacing_other stoi stod _ _ _ _ _ axis ?_ hs
    intro heq
    apply hline
    refine ⟨line.drop (line.indexOf '=' + 1), ?_⟩
    have hsplit := List.take_append_drop (line.indexOf '=') line
    rw [List.drop_eq_getElem_cons hidx, List.getElem_indexOf hidx, ← hname, heq] at hsplit
    simpa using hsplit
  · injection h with h
    subst h
    rfl

theorem readLines_spacing_unchanged (stoi : List Char → Option Int)
    (stod : List Char → Option ℚ) (axis : Nat) (lines : List (List Char)) :
    ∀ (st st2 : State × List Char),
      (∀ line ∈ lines,
        line.length < 2 ^ 32 ∧ ¬ (pixelDimensionName axis ++ ['=']) <+: line) →
      readLines stoi stod lines st = Except.ok st2 →
      st2.1.m_Spacing axis = st.1.m_Spacing axis := by
  induction lines with
  | nil =>
    intro st st2 _ h
    injection h with h
    subst h
    rfl
  | cons line rest ih =>
    intro st st2 hlines h
    obtain ⟨mid, hmid, hrest⟩ := bind_ok _ _ _ h
    obtain ⟨hlen, hline⟩ := hlines line (List.mem_cons_self _ _)
    rw [ih mid st2 (fun l hl => hlines l (List.mem_cons_of_mem _ hl)) hrest,
      readLine_spacing_unchanged stoi stod st mid line axis hlen hline hmid]

theorem readLines_spacing_of_last (stoi : List Char → Option Int) (stod : List Char → Option ℚ)
    (axis : Nat) (haxis : axis < 3) (value : List Char) (v : ℚ) (hv : stod value = some v)
    (hlen : (pixelDimensionName axis ++ '=' :: value).length < 2 ^ 32)
    (before after : List (List Char)) (st st2 : State × List Char)
    (hafter : ∀ line ∈ after,
      line.length < 2 ^ 32 ∧ ¬ (pixelDimensionName axis ++ ['=']) <+: line)
    (h : readLines stoi stod (before ++ (pixelDimensionName axis ++ '=' :: value) :: after) st
      = Except.ok st2) :
    st2.1.m_Spacing axis = if 10 * v = 0 then 1 else 10 * v := by
  rw [readLines_append] at h
  obtain ⟨mid, _, h⟩ := bind_ok _ _ _ h
  obtain ⟨mid2, hmid2, hrest⟩ := bind_ok _ _ _ h
  obtain ⟨sectionName, hread⟩ :=
    readLine_pixelDimension stoi stod mid axis haxis value v hv hlen
  rw [hread] at hmid2
  injection hmid2 with hmid2
  rw [readLines_spacing_unchanged stoi stod axis after mid2 st2 hafter hrest, ← hmid2]
  simp only [SetSpacing, Function.update_same]

/-- C16. A header line that gives the pixel dimension `v` of an axis sets the
spacing of that axis to `10 * v` when that is not zero and to 1 when it is.
When `ReadImageInformation` has read a header in which that line is the last
one naming the axis, the spacing of the axis in the image IO is `10 * v` when
that is not zero and 1 when it is; so after a header with such a line has been
read the spacing of that axis is not zero.  Reading succeeds whenever the
conversions of the standard library do. -/
theorem C16_spacing_from_header (stoi : List Char → Option Int) (stod : List Char → Option ℚ)
    (axis : Nat) (haxis : axis < 3) (value : List Char) (v : ℚ) (hv : stod value = some v)
    (hlen : (pixelDimensionName axis ++ '=' :: value).length < 2 ^ 32) :
    (∀ st : State × List Char, ∃ st2,
      readLine stoi stod st (pixelDimensionName axis ++ '=' :: value) = Except.ok st2 ∧
      (10 * v ≠ 0 → st2.1.m_Spacing axis = 10 * v) ∧
      (10 * v = 0 → st2.1.m_Spacing axis = 1) ∧
      st2.1.m_Spacing axis ≠ 0) ∧
    (∀ (before after : List (List Char)) (s t : State),
      (∀ line ∈ after,
        line.length < 2 ^ 32 ∧ ¬ (pixelDimensionName axis ++ ['=']) <+: line) →
      ReadImageInformation stoi stod
        (some (before ++ (pixelDimensionName axis ++ '=' :: value) :: after)) s = Except.ok t →
      (10 * v ≠ 0 → t.m_Spacing axis = 10 * v) ∧
      (10 * v = 0 → t.m_Spacing axis = 1)) ∧
    (∀ (lines : List (List Char)) (s t : State),
      (pixelDimensionName axis ++ '=' :: value) ∈ lines →
      ReadImageInformation stoi stod (some lines) s = Except.ok t →
      t.m_Spacing axis ≠ 0) ∧
    ((∀ text, ∃ i, stoi text = some i) → (∀ text, ∃ d, stod text = some d) →
      ∀ (lines : List (List Char)) (s : State), (∀ line ∈ lines, line.length < 2 ^ 32) →
      ∃ t, ReadImageInformation stoi stod (some lines) s = Except.ok t) := by
  refine ⟨?_, ?_, ?_, ?_⟩
  · intro st
    obtain ⟨sectionName, hread⟩ :=
      readLine_pixelDimension stoi stod st axis haxis value v hv hlen
    refine ⟨_, hread, ?_, ?_, ?_⟩
    · intro hne
      simp only [SetSpacing, Function.update_same, if_neg hne]
    · intro heq
      simp only [SetSpacing, Function.update_same, if_pos heq]
    · simp only [SetSpacing, Function.update_same]
      split
      · exact one_ne_zero
      · assumption
  · intro before after s t hafter h
    unfold ReadImageInformation at h
    obtain ⟨st2, hst2, rfl⟩ := map_ok _ _ _ h
    have hlast := readLines_spacing_of_last stoi stod axis haxis value v hv hlen before after
      _ st2 hafter hst2
    constructor
    · intro hne
      rw [hlast, if_neg hne]
    · intro heq
      rw [hlast, if_pos heq]
  · intro lines s t hmem h
    unfold ReadImageInformation at h
    obtain ⟨st2, hst2, rfl⟩ := map_ok _ _ _ h
    exact readLines_spacing_of_mem stoi stod axis haxis value v hv hlen lines _ st2 hmem hst2
  · intro hi hd lines s hlines
    obtain ⟨st2, hst2⟩ := readLines_total stoi stod hi hd lines hlines
      ({ s with m_NumberOfDimensions := 3 }, [])
    refine ⟨st2.1, ?_⟩
    unfold ReadImageInformation
    simp only [hst2]
    rfl

/-- C16 on the example header: the line giving 0.02 cm along I sets the
spacing of axis 0 to 1/5, and `ReadImageInformation` on the whole header
returns an image IO whose spacing along axis 0 is 1/5. -/
theorem C16_spacing_from_header_witness :
    (∃ st2, readLine Example.stoi Example.stod (Example.imageIO, [])
        "CBCT.DimensionalAttributes.PixelDimension_I_cm=0.02".toList = Except.ok st2 ∧
      st2.1.m_Spacing 0 = 1 / 5) ∧
    (∃ t, ReadImageInformation Example.stoi Example.stod (some Example.header) Example.imageIO
        = Except.ok t ∧ t.m_Spacing 0 = 1 / 5 ∧ t.m_Spacing 0 ≠ 0) := by
  have h := C16_spacing_from_header Example.stoi Example.stod 0 (by decide) "0.02".toList
    (1 / 50) (by rfl) (by decide)
  constructor
  · obtain ⟨st2, h1, h2, _, _⟩ := h.1 (Example.imageIO, [])
    exact ⟨st2, h1, (h2 (by norm_num)).trans (by norm_num)⟩
  · have hread : ∃ t, ReadImageInformation Example.stoi Example.stod (some Example.header)
        Example.imageIO = Except.ok t := ⟨_, rfl⟩
    obtain ⟨t, ht⟩ := hread
    have hlast := (h.2.1 (Example.header.take 3) (Example.header.drop 4) Example.imageIO t
      (by decide) ht).1 (by norm_num)
    exact ⟨t, ht, hlast.trans (by norm_num),
      h.2.2.1 Example.header Example.imageIO t (by decide) ht⟩

end XRadImageIO

end rtk
